import Mathlib

/-!
# CameraAPI: lifecycle, buffer pool and capture loop of the V4L2 camera

A shallow embedding of `libcamera/CameraAPI.cpp` and `CameraAPI.h`.

* The fields of the C++ object are the structure `CameraAPI`.
* Every call that leaves the object (system calls, ioctls, JNI calls, the decoder, the
  preview, the allocator) is written to a chronological list of `Event`s, and its result
  is supplied by an environment record passed to the operation.
* An operation is a function from the object and the environment to the returned
  `ActionInfo`, the object afterwards and the events it issued.  Where the C++ dereferences
  a null pointer or writes outside the buffer table the behaviour is undefined and the
  function returns `none`.
* Pointers to memory outside the object are integers (`0` is `NULL`, `-1` is `MAP_FAILED`);
  pointers to objects owned by the camera are `Option`s holding the owned object.
* Log output (`LOGD`, `LOGW`, `LOGE`) and the counters that only feed it are left out.
-/

namespace CameraV4L2

/-! ## Data model -/

/-- Lifecycle state: the enumeration `StatusInfo` of `CameraAPI.h`. -/
inductive StatusInfo
  | STATUS_CREATE
  | STATUS_OPEN
  | STATUS_INIT
  | STATUS_RUN
  deriving DecidableEq, Repr

/-- Numeric value of a lifecycle state (`STATUS_CREATE = 0` ... `STATUS_RUN = 3`), used by
the comparisons `STATUS_OPEN <= getStatus()`. -/
def StatusInfo.toNat : StatusInfo → Nat
  | .STATUS_CREATE => 0
  | .STATUS_OPEN => 1
  | .STATUS_INIT => 2
  | .STATUS_RUN => 3

/-- Modelled from the spec: the result enumeration `ActionInfo` is declared in
`NativeAPI.h`, which is not among the sources.  The constructors are the enumerators that
`CameraAPI.cpp` returns; `ACTION_SUCCESS` is the only one that is not an error kind of the
spec's error taxonomy. -/
inductive ActionInfo
  | ACTION_SUCCESS
  | ACTION_ERROR_START
  | ACTION_ERROR_CREATE_HAD
  | ACTION_ERROR_DEVICE_ACCESS
  | ACTION_ERROR_OPEN_FAIL
  | ACTION_ERROR_NO_DEVICE
  | ACTION_ERROR_INVALID_PATH
  | ACTION_ERROR_AUTO_EXPOSURE
  | ACTION_ERROR_SET_EXPOSURE
  | ACTION_ERROR_GET_W_H
  | ACTION_ERROR_SET_W_H
  | ACTION_ERROR_DECODER
  | ACTION_ERROR_CALLBACK
  | ACTION_ERROR_SET_PREVIEW
  | ACTION_ERROR_STOP
  | ACTION_ERROR_CLOSE
  deriving DecidableEq, Repr

/-- Modelled from the spec: the pixel layouts a decoder or a preview can declare
(`PixelFormat`, declared in a header that is not among the sources).  The named
constructors are the enumerators `CameraAPI.cpp` mentions; `PIXEL_FORMAT_OTHER` stands for
every other layout ("otherwise" in the spec's format selection). -/
inductive PixelFormat
  | PIXEL_FORMAT_NV12
  | PIXEL_FORMAT_YUYV
  | PIXEL_FORMAT_DEPTH
  | PIXEL_FORMAT_ERROR
  | PIXEL_FORMAT_OTHER
  deriving DecidableEq, Repr

/-- One slot of the buffer table: `struct VideoBuffer`. -/
structure VideoBuffer where
  start : Int
  length : Nat
  deriving DecidableEq, Repr

/-- Modelled from the spec: a decoder instance (`DecoderFactory`, not among the sources):
the size it was initialised for and the pixel layout `getPixelFormat()` declares. -/
structure DecoderFactory where
  width : Int
  height : Int
  pixelFormat : PixelFormat
  deriving DecidableEq, Repr

/-- Modelled from the spec: the render sink (`CameraView`, not among the sources), as the
arguments of its constructor. -/
structure CameraView where
  width : Int
  height : Int
  pixelFormat : PixelFormat
  window : Nat
  deriving DecidableEq, Repr

/-- The fields of `class CameraAPI`.  `frameCallback` and `frameCallback_onFrame` are JNI
handles (`0` is `NULL`); `out_buffer` is `some n` for a live block of `n` bytes;
`debugSavePath` is the bytes of the array before its first NUL. -/
structure CameraAPI where
  fd : Int
  frameWidth : Int
  frameHeight : Int
  frameFormat : Int
  useMultiplanar : Bool
  pixelBytes : Nat
  out_buffer : Option Nat
  buffers : Option (List VideoBuffer)
  decoder : Option DecoderFactory
  preview : Option CameraView
  frameCallback : Nat
  frameCallback_onFrame : Nat
  thread_camera : Nat
  status : StatusInfo
  saveFrameRequested : Bool
  debugSavePath : List Nat
  deriving DecidableEq, Repr

/-- The constructor `CameraAPI::CameraAPI()`. -/
def CameraAPI.new : CameraAPI where
  fd := 0
  frameWidth := 0
  frameHeight := 0
  frameFormat := 0
  useMultiplanar := false
  pixelBytes := 0
  out_buffer := none
  buffers := none
  decoder := none
  preview := none
  frameCallback := 0
  frameCallback_onFrame := 0
  thread_camera := 0
  status := .STATUS_CREATE
  saveFrameRequested := false
  debugSavePath := []

/-! ## Constants -/

def MAX_BUFFER_COUNT : Nat := 4

def MAX_DEV_VIDEO_INDEX : Nat := 99

def V4L2_CAP_VIDEO_CAPTURE : Nat := 0x00000001

def V4L2_CAP_VIDEO_CAPTURE_MPLANE : Nat := 0x00001000

def V4L2_CAP_DEVICE_CAPS : Nat := 0x80000000

def V4L2_BUF_TYPE_VIDEO_CAPTURE : Nat := 1

def V4L2_BUF_TYPE_VIDEO_CAPTURE_MPLANE : Nat := 9

def V4L2_PIX_FMT_YUYV : Nat := 0x56595559

def V4L2_PIX_FMT_MJPEG : Nat := 0x47504A4D

def V4L2_FMT_FLAG_COMPRESSED : Nat := 0x0001

def V4L2_FRMSIZE_TYPE_DISCRETE : Nat := 1

def V4L2_FRMSIZE_TYPE_CONTINUOUS : Nat := 2

def V4L2_FRMSIZE_TYPE_STEPWISE : Nat := 3

def V4L2_CID_EXPOSURE_AUTO : Nat := 0x009a0901

def V4L2_CID_EXPOSURE_ABSOLUTE : Nat := 0x009a0902

def V4L2_EXPOSURE_AUTO : Nat := 0

def V4L2_EXPOSURE_MANUAL : Nat := 1

def EPERM : Int := 1

def EACCES : Int := 13

/-- The value `(void *) -1` that `mmap` returns on failure. -/
def MAP_FAILED : Int := -1

def FRAME_FORMAT_MJPEG : Int := 0

def FRAME_FORMAT_YUYV : Int := 1

def FRAME_FORMAT_DEPTH : Int := 2

/-- The buffer type of the API variant: the expression
`useMultiplanar ? V4L2_BUF_TYPE_VIDEO_CAPTURE_MPLANE : V4L2_BUF_TYPE_VIDEO_CAPTURE`. -/
def bufType (useMultiplanar : Bool) : Nat :=
  if useMultiplanar then V4L2_BUF_TYPE_VIDEO_CAPTURE_MPLANE else V4L2_BUF_TYPE_VIDEO_CAPTURE

/-! ## Calls that leave the object -/

/-- A call made by the camera object to the operating system, the Java runtime, the
decoder, the preview or the allocator, with its arguments and its result. -/
inductive Event
  | read_modalias (index : Nat)
  | access (path : String) (ret : Int)
  | sys_open (path : String) (ret : Int)
  | sys_close (fd : Int) (ret : Int)
  | VIDIOC_QUERYCAP (fd : Int) (ret : Int)
  | VIDIOC_S_CTRL (fd : Int) (id : Nat) (value : Nat) (ret : Int)
  | VIDIOC_ENUM_FMT (fd : Int) (type : Nat) (index : Nat) (ret : Int)
  | VIDIOC_ENUM_FRAMESIZES (fd : Int) (pixelformat : Nat) (index : Nat) (ret : Int)
  | VIDIOC_S_FMT (fd : Int) (type : Nat) (width height : Int) (pixelformat : Nat) (ret : Int)
  | VIDIOC_S_PARM (fd : Int) (type : Nat) (numerator denominator : Nat) (ret : Int)
  | VIDIOC_REQBUFS (fd : Int) (count : Nat) (type : Nat) (ret : Int)
  | VIDIOC_QUERYBUF (fd : Int) (index : Nat) (type : Nat) (ret : Int)
  | mmap (length : Nat) (fd : Int) (offset : Nat) (ret : Int)
  | munmap (start : Int) (length : Nat) (ret : Int)
  | VIDIOC_QBUF (fd : Int) (index : Nat) (type : Nat) (ret : Int)
  | VIDIOC_DQBUF (fd : Int) (type : Nat) (ret : Int) (index : Nat)
  | VIDIOC_STREAMON (fd : Int) (type : Nat) (ret : Int)
  | VIDIOC_STREAMOFF (fd : Int) (type : Nat) (ret : Int)
  | select (nfds : Int) (ret : Int)
  | pthread_create (ret : Int)
  | pthread_join (thread : Nat) (ret : Int)
  | calloc_buffers (ok : Bool)
  | calloc_out_buffer (size : Nat) (ok : Bool)
  | free_buffers
  | free_out_buffer
  | decoder_new
  | decoder_init (width height : Int) (ret : Int)
  | decoder_delete
  | convert2YUV (src : Int) (bytesused : Nat)
  | memcpy_out_buffer (src : Int) (n : Nat)
  | saveFrameToFile (size : Nat) (suffix : String)
  | preview_new (width height : Int) (pixelFormat : PixelFormat) (window : Nat)
  | preview_destroy
  | preview_pause
  | preview_render (data : List Nat)
  | GetObjectClass (obj : Nat) (clazz : Nat)
  | GetMethodID (clazz : Nat) (method : Nat)
  | DeleteGlobalRef (obj : Nat)
  | CallVoidMethod (obj : Nat) (method : Nat) (data : List Nat) (size : Nat)
  deriving DecidableEq, Repr

/-- The camera object together with the chronological record of the calls it has made. -/
structure Sys where
  cam : CameraAPI
  trace : List Event
  deriving DecidableEq, Repr

/-- A freshly constructed camera: no call has been made. -/
def Sys.init : Sys := ⟨CameraAPI.new, []⟩

/-! ## Device path validation and open -/

/-- The C function `isdigit` in the "C" locale. -/
def isdigit (c : Char) : Bool := decide ('0' ≤ c ∧ c ≤ '9')

/-- Result of `strncmp(devicePath, "/dev/video", 10) != 0` for a text without embedded NUL:
the first ten characters differ from `/dev/video`. -/
def strncmpDevVideoNe (devicePath : String) : Bool :=
  devicePath.toList.take 10 != "/dev/video".toList

/-- The method `CameraAPI::validateDevicePath`.  `devicePath` is `none` for a null pointer,
else the text before the terminating NUL; `accessRet` is the result of
`access(devicePath, F_OK)`.  Returns the verdict and the events issued. -/
def validateDevicePath (devicePath : Option String) (accessRet : Int) : Bool × List Event :=
  match devicePath with
  | none => (false, [])
  | some p =>
    if p.length = 0 then (false, [])
    else if strncmpDevVideoNe p then (false, [])
    else
      let numPart := p.toList.drop 10
      if numPart.length = 0 || !(isdigit (numPart.headD '0')) then (false, [])
      else if accessRet ≠ 0 then (false, [Event.access p accessRet])
      else (true, [Event.access p accessRet])

/-- Results of the system calls made by `openDevice`. -/
structure OpenEnv where
  openRet : Int
  errno : Int
  querycapRet : Int
  closeRet : Int
  capabilities : Nat
  device_caps : Nat

/-- The word `caps` of `openDevice`:
`(cap.capabilities & V4L2_CAP_DEVICE_CAPS) ? cap.device_caps : cap.capabilities`. -/
def effectiveCaps (capabilities device_caps : Nat) : Nat :=
  if capabilities &&& V4L2_CAP_DEVICE_CAPS ≠ 0 then device_caps else capabilities

/-- The method `CameraAPI::openDevice`. -/
def openDevice (c : CameraAPI) (devicePath : String) (e : OpenEnv) :
    ActionInfo × CameraAPI × List Event :=
  if c.status ≠ .STATUS_CREATE then (.ACTION_ERROR_CREATE_HAD, c, [])
  else
    let c1 := { c with fd := e.openRet }
    let ev1 := [Event.sys_open devicePath e.openRet]
    if e.openRet < 0 then
      if e.errno = EACCES ∨ e.errno = EPERM then (.ACTION_ERROR_DEVICE_ACCESS, c1, ev1)
      else (.ACTION_ERROR_OPEN_FAIL, c1, ev1)
    else
      let ev2 := ev1 ++ [Event.VIDIOC_QUERYCAP c1.fd e.querycapRet]
      if e.querycapRet < 0 then
        (.ACTION_ERROR_START, { c1 with fd := 0 }, ev2 ++ [Event.sys_close c1.fd e.closeRet])
      else
        let caps := effectiveCaps e.capabilities e.device_caps
        let supportsCapture : Bool :=
          (caps &&& V4L2_CAP_VIDEO_CAPTURE ≠ 0) || (caps &&& V4L2_CAP_VIDEO_CAPTURE_MPLANE ≠ 0)
        if !supportsCapture then
          (.ACTION_ERROR_START, { c1 with fd := 0 }, ev2 ++ [Event.sys_close c1.fd e.closeRet])
        else
          (.ACTION_SUCCESS,
            { c1 with useMultiplanar := decide (caps &&& V4L2_CAP_VIDEO_CAPTURE_MPLANE ≠ 0),
                      status := .STATUS_OPEN },
            ev2)

/-- Environment of `connect`: for each index `i` the identifiers `(vid, pid)` that the
chain of reads and parses of `/sys/class/video4linux/video<i>/device/modalias` leaves in
the locals `vid` and `pid` (both `0` when a read or a parse fails), and the results of the
open that follows a match. -/
structure ConnectEnv where
  ids : Nat → Nat × Nat
  dev : OpenEnv

/-- The scan loop of `connect` over the indices still to visit: the name of the first node
whose identifiers equal the target pair (empty when there is none), and the reads made. -/
def scanDevVideo (target_pid target_vid : Nat) (ids : Nat → Nat × Nat) :
    List Nat → List Event → String × List Event
  | [], ev => ("", ev)
  | i :: rest, ev =>
    let ev1 := ev ++ [Event.read_modalias i]
    if target_pid = (ids i).2 ∧ target_vid = (ids i).1 then
      ("/dev/video" ++ toString i, ev1)
    else scanDevVideo target_pid target_vid ids rest ev1

/-- The method `CameraAPI::connect`. -/
def connect (c : CameraAPI) (target_pid target_vid : Nat) (e : ConnectEnv) :
    ActionInfo × CameraAPI × List Event :=
  if c.status = .STATUS_CREATE then
    let r := scanDevVideo target_pid target_vid e.ids (List.range (MAX_DEV_VIDEO_INDEX + 1)) []
    if r.1.isEmpty then (.ACTION_ERROR_NO_DEVICE, c, r.2)
    else
      let o := openDevice c r.1 e.dev
      (o.1, o.2.1, r.2 ++ o.2.2)
  else (.ACTION_ERROR_CREATE_HAD, c, [])

/-- Environment of `connectByPath`: the result of `access` and of the open. -/
structure PathEnv where
  accessRet : Int
  dev : OpenEnv

/-- The method `CameraAPI::connectByPath`. -/
def connectByPath (c : CameraAPI) (devicePath : Option String) (e : PathEnv) :
    ActionInfo × CameraAPI × List Event :=
  let v := validateDevicePath devicePath e.accessRet
  if !v.1 then (.ACTION_ERROR_INVALID_PATH, c, v.2)
  else
    let o := openDevice c (devicePath.getD "") e.dev
    (o.1, o.2.1, v.2 ++ o.2.2)

/-! ## Integer conversions -/

/-- Arithmetic of the C type `int`: the value reduced to the signed 32-bit range. -/
def wrapInt32 (x : Int) : Int := (x + 2 ^ 31) % 2 ^ 32 - 2 ^ 31

/-- Conversion of an `int` to `size_t` (64-bit). -/
def toSizeT (x : Int) : Nat := (x % 2 ^ 64).toNat

/-! ## Exposure and resolution enumeration -/

/-- The method `CameraAPI::autoExposure`; `ret` is the result of the ioctl. -/
def autoExposure (c : CameraAPI) (isAuto : Bool) (ret : Int) :
    ActionInfo × CameraAPI × List Event :=
  if StatusInfo.STATUS_OPEN.toNat ≤ c.status.toNat then
    let ev := [Event.VIDIOC_S_CTRL c.fd V4L2_CID_EXPOSURE_AUTO
      (if isAuto then V4L2_EXPOSURE_AUTO else V4L2_EXPOSURE_MANUAL) ret]
    if ret < 0 then (.ACTION_ERROR_AUTO_EXPOSURE, c, ev) else (.ACTION_SUCCESS, c, ev)
  else (.ACTION_ERROR_AUTO_EXPOSURE, c, [])

/-- The method `CameraAPI::updateExposure`; `ret` is the result of the ioctl. -/
def updateExposure (c : CameraAPI) (level : Nat) (ret : Int) :
    ActionInfo × CameraAPI × List Event :=
  if StatusInfo.STATUS_OPEN.toNat ≤ c.status.toNat then
    let ev := [Event.VIDIOC_S_CTRL c.fd V4L2_CID_EXPOSURE_ABSOLUTE level ret]
    if ret < 0 then (.ACTION_ERROR_SET_EXPOSURE, c, ev) else (.ACTION_SUCCESS, c, ev)
  else (.ACTION_ERROR_SET_EXPOSURE, c, [])

/-- One answer of `VIDIOC_ENUM_FRAMESIZES`. -/
structure FrmSize where
  type : Nat
  width : Nat
  height : Nat
  max_width : Nat
  max_height : Nat

/-- One answer of `VIDIOC_ENUM_FMT` with the frame sizes the driver enumerates for it. -/
structure FmtDesc where
  pixelformat : Nat
  flags : Nat
  sizes : List FrmSize

/-- The resolutions that the body of the inner loop of `getSupportSize` appends for one
enumerated frame size.  The driver's `__u32` width and height are converted to `int` by
`emplace_back` into the `pair<int, int>`. -/
def sizesOfFrmSize (flags : Nat) (f : FrmSize) : List (Int × Int) :=
  if f.type = V4L2_FRMSIZE_TYPE_DISCRETE then
    if flags &&& V4L2_FMT_FLAG_COMPRESSED ≠ 0 then
      [(wrapInt32 (f.width : Int), wrapInt32 (f.height : Int))]
    else [(wrapInt32 (f.width : Int), wrapInt32 (f.height : Int))]
  else if f.type = V4L2_FRMSIZE_TYPE_STEPWISE ∨ f.type = V4L2_FRMSIZE_TYPE_CONTINUOUS then
    (if f.max_width ≥ 1920 ∧ f.max_height ≥ 1080 then [((1920 : Int), (1080 : Int))] else [])
      ++ (if f.max_width ≥ 1280 ∧ f.max_height ≥ 720 then [((1280 : Int), (720 : Int))] else [])
      ++ (if f.max_width ≥ 640 ∧ f.max_height ≥ 480 then [((640 : Int), (480 : Int))] else [])
  else []

/-- The inner loop of `getSupportSize`: the frame sizes of one format, from index `i`. -/
def enumFrameSizes (fd : Int) (pixelformat flags : Nat) :
    List FrmSize → Nat → List (Int × Int) × List Event
  | [], i => ([], [Event.VIDIOC_ENUM_FRAMESIZES fd pixelformat i (-1)])
  | f :: rest, i =>
    let r := enumFrameSizes fd pixelformat flags rest (i + 1)
    (sizesOfFrmSize flags f ++ r.1, Event.VIDIOC_ENUM_FRAMESIZES fd pixelformat i 0 :: r.2)

/-- The outer loop of `getSupportSize`: the formats, from index `i`. -/
def enumFormats (fd : Int) (type : Nat) : List FmtDesc → Nat → List (Int × Int) × List Event
  | [], i => ([], [Event.VIDIOC_ENUM_FMT fd type i (-1)])
  | d :: rest, i =>
    let inner := enumFrameSizes fd d.pixelformat d.flags d.sizes 0
    let r := enumFormats fd type rest (i + 1)
    (inner.1 ++ r.1, Event.VIDIOC_ENUM_FMT fd type i 0 :: inner.2 ++ r.2)

/-- The method `CameraAPI::getSupportSize`: `formats` are the answers of the driver before
each enumeration ends, `sizes` is the vector passed by reference, returned extended. -/
def getSupportSize (c : CameraAPI) (formats : List FmtDesc) (sizes : List (Int × Int)) :
    ActionInfo × List (Int × Int) × CameraAPI × List Event :=
  if StatusInfo.STATUS_OPEN.toNat ≤ c.status.toNat then
    let r := enumFormats c.fd (bufType c.useMultiplanar) formats 0
    (.ACTION_SUCCESS, sizes ++ r.1, c, r.2)
  else (.ACTION_ERROR_GET_W_H, sizes, c, [])

/-! ## Format negotiation -/

/-- The expression `width * height * 2` assigned to `pixelBytes`. -/
def pixelBytesPacked (width height : Int) : Nat :=
  toSizeT (wrapInt32 (wrapInt32 (width * height) * 2))

/-- The expression `width * height * 3 / 2` assigned to `pixelBytes`. -/
def pixelBytesNV12 (width height : Int) : Nat :=
  toSizeT (Int.tdiv (wrapInt32 (wrapInt32 (width * height) * 3)) 2)

/-- Results of the calls made by `setFrameSize`. -/
structure FormatEnv where
  sfmtRet : Int
  callocOk : Bool
  decoderInitRet : Int
  decoderPixelFormat : PixelFormat
  sparmRet : Int

/-- The method `CameraAPI::setFrameSize`.  The closing adjustment of `bytesperline` and
`sizeimage` acts on the local `format` only and is left out. -/
def setFrameSize (c : CameraAPI) (width height frame_format : Int) (e : FormatEnv) :
    ActionInfo × CameraAPI × List Event :=
  if c.status = .STATUS_OPEN then
    let ev1 := [Event.VIDIOC_S_FMT c.fd (bufType c.useMultiplanar) width height
      (if frame_format ≠ 0 then V4L2_PIX_FMT_YUYV else V4L2_PIX_FMT_MJPEG) e.sfmtRet]
    if e.sfmtRet < 0 then (.ACTION_ERROR_SET_W_H, c, ev1)
    else
      let parm := [Event.VIDIOC_S_PARM c.fd (bufType c.useMultiplanar) 1 30 e.sparmRet]
      if frame_format ≠ 0 then
        let n := pixelBytesPacked width height
        (.ACTION_SUCCESS,
          { c with pixelBytes := n,
                   out_buffer := if e.callocOk then some n else none,
                   frameWidth := width, frameHeight := height, frameFormat := frame_format,
                   status := .STATUS_INIT },
          ev1 ++ [Event.calloc_out_buffer n e.callocOk] ++ parm)
      else
        let ev2 := ev1 ++ [Event.decoder_new, Event.decoder_init width height e.decoderInitRet]
        if e.decoderInitRet ≠ 0 then
          (.ACTION_ERROR_DECODER, { c with decoder := none }, ev2 ++ [Event.decoder_delete])
        else
          let n := if e.decoderPixelFormat = .PIXEL_FORMAT_NV12 then pixelBytesNV12 width height
                   else pixelBytesPacked width height
          (.ACTION_SUCCESS,
            { c with decoder := some ⟨width, height, e.decoderPixelFormat⟩,
                     pixelBytes := n,
                     frameWidth := width, frameHeight := height, frameFormat := frame_format,
                     status := .STATUS_INIT },
            ev2 ++ parm)
  else (.ACTION_ERROR_SET_W_H, c, [])

/-- The method `CameraAPI::getActualFrameSize`. -/
def getActualFrameSize (c : CameraAPI) : Int × Int := (c.frameWidth, c.frameHeight)

/-! ## Sinks -/

/-- Results of the JNI calls made by `setFrameCallback`. -/
structure CallbackEnv where
  clazz : Nat
  methodID : Nat

/-- The method `CameraAPI::setFrameCallback`.  JNI handles are numbers and
`IsSameObject` is equality of handles. -/
def setFrameCallback (c : CameraAPI) (frame_callback : Nat) (e : CallbackEnv) :
    ActionInfo × CameraAPI × List Event :=
  if c.status = .STATUS_INIT then
    if c.frameCallback ≠ frame_callback then
      let ev1 := if c.frameCallback ≠ 0 then [Event.DeleteGlobalRef c.frameCallback] else []
      if frame_callback ≠ 0 then
        let ev2 := ev1 ++ [Event.GetObjectClass frame_callback e.clazz]
        let c1 := if e.clazz ≠ 0 then
            { c with frameCallback := frame_callback, frameCallback_onFrame := e.methodID }
          else c
        let ev3 := if e.clazz ≠ 0 then ev2 ++ [Event.GetMethodID e.clazz e.methodID] else ev2
        if c1.frameCallback_onFrame = 0 then
          (.ACTION_SUCCESS, { c1 with frameCallback := 0, frameCallback_onFrame := 0 },
            ev3 ++ [Event.DeleteGlobalRef c1.frameCallback])
        else (.ACTION_SUCCESS, c1, ev3)
      else (.ACTION_SUCCESS, c, ev1)
    else (.ACTION_SUCCESS, c, [])
  else (.ACTION_ERROR_CALLBACK, c, [])

/-- Modelled from the spec: the macros `SAFE_DELETE` and `SAFE_FREE` of `Common.h` (not
among the sources) release the object when the pointer is not null and leave the pointer
null; this is the release call they make, `rel`, when there is one. -/
def safeRelease {α : Type} (p : Option α) (rel : Event) : List Event :=
  if p.isSome then [rel] else []

/-- The pixel layout `setPreview` passes to the new `CameraView`. -/
def previewPixelFormat (c : CameraAPI) : PixelFormat :=
  match c.decoder with
  | some d => d.pixelFormat
  | none =>
    if c.frameFormat = FRAME_FORMAT_YUYV then .PIXEL_FORMAT_YUYV
    else if c.frameFormat = FRAME_FORMAT_DEPTH then .PIXEL_FORMAT_DEPTH
    else .PIXEL_FORMAT_ERROR

/-- The method `CameraAPI::setPreview`; `window` is the `ANativeWindow` pointer. -/
def setPreview (c : CameraAPI) (window : Nat) : ActionInfo × CameraAPI × List Event :=
  if c.status = .STATUS_INIT then
    let ev1 := safeRelease c.preview Event.preview_destroy
    if window ≠ 0 then
      let pf := previewPixelFormat c
      (.ACTION_SUCCESS, { c with preview := some ⟨c.frameWidth, c.frameHeight, pf, window⟩ },
        ev1 ++ [Event.preview_new c.frameWidth c.frameHeight pf window])
    else (.ACTION_SUCCESS, { c with preview := none }, ev1)
  else (.ACTION_ERROR_SET_PREVIEW, c, [])

/-! ## Buffer pool -/

/-- The answer of `VIDIOC_QUERYBUF` for one index: the single-planar `length` and
`m.offset`, and the multi-planar `m.planes[0].length` and `m.planes[0].m.mem_offset`. -/
structure QueryBufReply where
  length : Nat
  offset : Nat
  planeLength : Nat
  planeOffset : Nat

/-- Results of the calls made by `prepareBuffer`, by buffer index where there is one. -/
structure BufferEnv where
  reqbufsRet : Int
  callocOk : Bool
  querybufRet : Nat → Int
  reply : Nat → QueryBufReply
  mmapRet : Nat → Int
  qbufRet : Nat → Int

/-- The length the driver reports for index `i` under the API variant in use. -/
def reportedLength (useMultiplanar : Bool) (e : BufferEnv) (i : Nat) : Nat :=
  if useMultiplanar then (e.reply i).planeLength else (e.reply i).length

/-- The offset the driver reports for index `i` under the API variant in use. -/
def reportedOffset (useMultiplanar : Bool) (e : BufferEnv) (i : Nat) : Nat :=
  if useMultiplanar then (e.reply i).planeOffset else (e.reply i).offset

/-- Step 2 of `prepareBuffer` ("query memory"), over the indices still to visit. -/
def queryMemory (e : BufferEnv) :
    List Nat → CameraAPI → List Event → Option (ActionInfo × CameraAPI × List Event)
  | [], c, ev => some (.ACTION_SUCCESS, c, ev)
  | i :: rest, c, ev =>
    let ev1 := ev ++ [Event.VIDIOC_QUERYBUF c.fd i (bufType c.useMultiplanar) (e.querybufRet i)]
    if e.querybufRet i < 0 then some (.ACTION_ERROR_START, c, ev1)
    else
      match c.buffers with
      | none => none
      | some tbl =>
        let len := reportedLength c.useMultiplanar e i
        let c1 := { c with buffers := some (tbl.set i ⟨e.mmapRet i, len⟩) }
        let ev2 := ev1 ++ [Event.mmap len c.fd (reportedOffset c.useMultiplanar e i) (e.mmapRet i)]
        if e.mmapRet i = MAP_FAILED then some (.ACTION_ERROR_START, c1, ev2)
        else queryMemory e rest c1 ev2

/-- Step 3 of `prepareBuffer` ("queue buffers"), over the indices still to visit. -/
def queueBuffers (e : BufferEnv) (c : CameraAPI) : List Nat → List Event → ActionInfo × List Event
  | [], ev => (.ACTION_SUCCESS, ev)
  | i :: rest, ev =>
    let ev1 := ev ++ [Event.VIDIOC_QBUF c.fd i (bufType c.useMultiplanar) (e.qbufRet i)]
    if e.qbufRet i < 0 then (.ACTION_ERROR_START, ev1)
    else queueBuffers e c rest ev1

/-- The method `CameraAPI::prepareBuffer`. -/
def prepareBuffer (c : CameraAPI) (e : BufferEnv) : Option (ActionInfo × CameraAPI × List Event) :=
  let ev1 := [Event.VIDIOC_REQBUFS c.fd MAX_BUFFER_COUNT (bufType c.useMultiplanar) e.reqbufsRet]
  if e.reqbufsRet < 0 then some (.ACTION_ERROR_START, c, ev1)
  else
    let c1 := { c with buffers :=
      if e.callocOk then some (List.replicate MAX_BUFFER_COUNT ⟨0, 0⟩) else none }
    match queryMemory e (List.range MAX_BUFFER_COUNT) c1 (ev1 ++ [Event.calloc_buffers e.callocOk]) with
    | none => none
    | some (a, c2, ev2) =>
      if a ≠ .ACTION_SUCCESS then some (a, c2, ev2)
      else
        let q := queueBuffers e c2 (List.range MAX_BUFFER_COUNT) ev2
        some (q.1, c2, q.2)

/-! ## Start, stop, close, destroy -/

/-- Results of the calls made by `start`. -/
structure StartEnv where
  buf : BufferEnv
  streamonRet : Int
  pthreadCreateRet : Int
  thread : Nat

/-- The method `CameraAPI::start`. -/
def start (c : CameraAPI) (e : StartEnv) : Option (ActionInfo × CameraAPI × List Event) :=
  if c.status = .STATUS_INIT then
    match prepareBuffer c e.buf with
    | none => none
    | some (a, c1, ev1) =>
      if a = .ACTION_SUCCESS then
        let ev2 := ev1 ++ [Event.VIDIOC_STREAMON c1.fd (bufType c1.useMultiplanar) e.streamonRet]
        if e.streamonRet < 0 then some (.ACTION_ERROR_START, c1, ev2)
        else
          let c2 := { c1 with status := .STATUS_RUN }
          let ev3 := ev2 ++ [Event.pthread_create e.pthreadCreateRet]
          if e.pthreadCreateRet = 0 then
            some (.ACTION_SUCCESS, { c2 with thread_camera := e.thread }, ev3)
          else some (.ACTION_ERROR_START, c2, ev3)
      else some (.ACTION_ERROR_START, c1, ev1)
  else some (.ACTION_ERROR_START, c, [])

/-- Results of the calls made by `stop`. -/
structure StopEnv where
  pthreadJoinRet : Int
  streamoffRet : Int
  munmapRet : Nat → Int

/-- Step 5 of `stop` ("release buffer"): `munmap` of every slot of the table. -/
def releaseBuffers (e : StopEnv) (tbl : List VideoBuffer) : List Nat → Option (List Event)
  | [] => some []
  | i :: rest =>
    match tbl.get? i, releaseBuffers e tbl rest with
    | some b, some ev => some (Event.munmap b.start b.length (e.munmapRet i) :: ev)
    | _, _ => none

/-- The method `CameraAPI::stop`. -/
def stop (c : CameraAPI) (e : StopEnv) : Option (ActionInfo × CameraAPI × List Event) :=
  if c.status = .STATUS_RUN then
    let c1 := { c with status := .STATUS_INIT }
    let a1 : ActionInfo := if e.pthreadJoinRet = 0 then .ACTION_SUCCESS else .ACTION_ERROR_STOP
    let ev1 := [Event.pthread_join c.thread_camera e.pthreadJoinRet]
      ++ (if c.preview.isSome then [Event.preview_pause] else [])
      ++ [Event.VIDIOC_STREAMOFF c.fd (bufType c.useMultiplanar) e.streamoffRet]
    let a2 : ActionInfo := if e.streamoffRet < 0 then .ACTION_ERROR_STOP else a1
    match c.buffers with
    | none => none
    | some tbl =>
      match releaseBuffers e tbl (List.range MAX_BUFFER_COUNT) with
      | none => none
      | some ev2 => some (a2, c1, ev1 ++ ev2)
  else some (.ACTION_ERROR_STOP, c, [])

/-- Results of the calls made by `close`: the result of `::close(fd)` and whether
`getEnv()` returns a JNI environment. -/
structure CloseEnv where
  closeRet : Int
  hasJNIEnv : Bool

/-- The method `CameraAPI::close`. -/
def close (c : CameraAPI) (e : CloseEnv) : ActionInfo × CameraAPI × List Event :=
  if c.status = .STATUS_INIT then
    let a : ActionInfo := if e.closeRet < 0 then .ACTION_ERROR_CLOSE else .ACTION_SUCCESS
    let ev := [Event.sys_close c.fd e.closeRet]
      ++ safeRelease c.buffers Event.free_buffers
      ++ safeRelease c.out_buffer Event.free_out_buffer
      ++ safeRelease c.decoder Event.decoder_delete
      ++ safeRelease c.preview Event.preview_destroy
    let c1 := { c with status := .STATUS_CREATE, buffers := none, out_buffer := none,
                       decoder := none, preview := none }
    if e.hasJNIEnv ∧ c.frameCallback_onFrame ≠ 0 then
      (a, { c1 with frameCallback_onFrame := 0, frameCallback := 0 },
        ev ++ [Event.DeleteGlobalRef c.frameCallback])
    else (a, c1, ev)
  else (.ACTION_SUCCESS, c, [])

/-- The method `CameraAPI::destroy`. -/
def destroy (c : CameraAPI) : ActionInfo × CameraAPI × List Event :=
  (.ACTION_SUCCESS,
    { c with preview := none, fd := 0, pixelBytes := 0, frameWidth := 0, frameHeight := 0,
             frameFormat := 0, useMultiplanar := false, thread_camera := 0,
             status := .STATUS_CREATE, frameCallback := 0, frameCallback_onFrame := 0,
             saveFrameRequested := false, debugSavePath := [],
             buffers := none, out_buffer := none, decoder := none },
    safeRelease c.preview Event.preview_destroy
      ++ safeRelease c.buffers Event.free_buffers
      ++ safeRelease c.out_buffer Event.free_out_buffer
      ++ safeRelease c.decoder Event.decoder_delete)

/-- The bytes of a C string: the UTF-8 encoding of the text. -/
def cBytes (p : String) : List Nat := p.toUTF8.data.toList.map UInt8.toNat

/-- The method `CameraAPI::requestSaveFrame`; `savePath` is `none` for a null pointer.
`strncpy` keeps the first 255 bytes of the path. -/
def requestSaveFrame (c : CameraAPI) (savePath : Option String) : CameraAPI :=
  match savePath with
  | none => c
  | some p =>
    if p.length > 0 then
      { c with debugSavePath := (cBytes p).take 255, saveFrameRequested := true }
    else c

/-! ## Capture loop -/

/-- What one pass of the `while` loop of `loopFrame` observes: the value of `status` read
at the head of the loop, the results of `select`, `VIDIOC_DQBUF` and `VIDIOC_QBUF`, the
descriptor the driver fills in (`index`, `bytesused`, `m.planes[0].bytesused`), the bytes
found at `buffers[index].start + k` (`mem k`), and the pointer `convert2YUV` returns
(`none` for null, else the decoded bytes). -/
structure LoopStep where
  status : StatusInfo
  selectRet : Int
  dqbufRet : Int
  index : Nat
  bytesused : Nat
  planeBytesused : Nat
  mem : Nat → Nat
  decoded : Option (List Nat)
  qbufRet : Int

/-- The method `CameraAPI::renderFrame`; `data` is `none` for a null pointer. -/
def renderFrame (c : CameraAPI) (data : Option (List Nat)) : List Event :=
  match c.preview, data with
  | some _, some d => [Event.preview_render d]
  | _, _ => []

/-- The method `CameraAPI::sendFrame`; `data` is `none` for a null pointer. -/
def sendFrame (c : CameraAPI) (data : Option (List Nat)) : List Event :=
  if c.frameCallback_onFrame ≠ 0 then
    match data with
    | some d => [Event.CallVoidMethod c.frameCallback c.frameCallback_onFrame d c.pixelBytes]
    | none => []
  else []

/-- The part of the loop body between a successful dequeue and the re-enqueue: decode or
copy, the debug dump, and the two deliveries. -/
def processFrame (c : CameraAPI) (st : LoopStep) : Option (CameraAPI × List Event) :=
  match c.buffers with
  | none => none
  | some tbl =>
    match tbl.get? st.index with
    | none => none
    | some slot =>
      if c.frameFormat = FRAME_FORMAT_MJPEG then
        match c.decoder with
        | none => none
        | some _ =>
          let bytesused := if c.useMultiplanar then st.planeBytesused else st.bytesused
          let save := if c.saveFrameRequested then
              [Event.saveFrameToFile bytesused "mjpeg",
               Event.saveFrameToFile c.pixelBytes "yuv_decoded"]
            else []
          some ({ c with saveFrameRequested := false },
            [Event.convert2YUV slot.start bytesused] ++ save
              ++ renderFrame c st.decoded ++ sendFrame c st.decoded)
      else
        match c.out_buffer with
        | none => none
        | some _ =>
          let data := (List.range c.pixelBytes).map st.mem
          let save := if c.saveFrameRequested then
              [Event.saveFrameToFile c.pixelBytes "yuyv_raw"]
            else []
          some ({ c with saveFrameRequested := false },
            [Event.memcpy_out_buffer slot.start c.pixelBytes] ++ save
              ++ renderFrame c (some data) ++ sendFrame c (some data))

/-- Whether `loopFrame` is still inside its `while` loop or has left it. -/
inductive LoopState
  | looping
  | returned
  deriving DecidableEq, Repr

/-- The method `CameraAPI::loopFrame`, run over the passes the script describes.  The
result is `looping` when the script ends with the loop still running. -/
def loopFrame : List LoopStep → CameraAPI → List Event →
    Option (LoopState × CameraAPI × List Event)
  | [], c, ev => some (.looping, c, ev)
  | st :: rest, c, ev =>
    if st.status ≠ .STATUS_RUN then some (.returned, c, ev)
    else
      let ev1 := ev ++ [Event.select (c.fd + 1) st.selectRet]
      if st.selectRet < 0 then loopFrame rest c ev1
      else if st.selectRet = 0 then loopFrame rest c ev1
      else
        let ev2 := ev1 ++
          [Event.VIDIOC_DQBUF c.fd (bufType c.useMultiplanar) st.dqbufRet st.index]
        if st.dqbufRet < 0 then some (.returned, c, ev2)
        else
          match processFrame c st with
          | none => none
          | some (c1, evb) =>
            loopFrame rest c1 (ev2 ++ evb ++
              [Event.VIDIOC_QBUF c.fd st.index (bufType c.useMultiplanar) st.qbufRet])

/-! ## The public operations as a transition system -/

/-- A call of a public operation that returns an `ActionInfo`, with its arguments and
the results of the calls it makes. -/
inductive Call
  | connect (target_pid target_vid : Nat) (e : ConnectEnv)
  | connectByPath (devicePath : Option String) (e : PathEnv)
  | autoExposure (isAuto : Bool) (ret : Int)
  | updateExposure (level : Nat) (ret : Int)
  | getSupportSize (formats : List FmtDesc) (sizes : List (Int × Int))
  | setFrameSize (width height frame_format : Int) (e : FormatEnv)
  | setFrameCallback (frame_callback : Nat) (e : CallbackEnv)
  | setPreview (window : Nat)
  | start (e : StartEnv)
  | stop (e : StopEnv)
  | close (e : CloseEnv)
  | destroy

/-- Append the events of an operation to the record. -/
def Sys.after (s : Sys) (r : ActionInfo × CameraAPI × List Event) : ActionInfo × Sys :=
  (r.1, ⟨r.2.1, s.trace ++ r.2.2⟩)

/-- Run one public operation; `none` when its behaviour is undefined. -/
def exec (s : Sys) : Call → Option (ActionInfo × Sys)
  | .connect p v e => some (s.after (connect s.cam p v e))
  | .connectByPath p e => some (s.after (connectByPath s.cam p e))
  | .autoExposure b r => some (s.after (autoExposure s.cam b r))
  | .updateExposure l r => some (s.after (updateExposure s.cam l r))
  | .getSupportSize f z =>
    let r := getSupportSize s.cam f z
    some (s.after (r.1, r.2.2))
  | .setFrameSize w h f e => some (s.after (setFrameSize s.cam w h f e))
  | .setFrameCallback cb e => some (s.after (setFrameCallback s.cam cb e))
  | .setPreview w => some (s.after (setPreview s.cam w))
  | .start e => (start s.cam e).map s.after
  | .stop e => (stop s.cam e).map s.after
  | .close e => some (s.after (close s.cam e))
  | .destroy => some (s.after (destroy s.cam))

/-- The states a camera can be in: a fresh object, then any sequence of public operations
with any results of the calls they make, of `requestSaveFrame` calls, and of passes of the
capture loop. -/
inductive Reachable : Sys → Prop
  | init : Reachable Sys.init
  | call (s : Sys) (c : Call) (a : ActionInfo) (t : Sys) :
      Reachable s → exec s c = some (a, t) → Reachable t
  | requestSaveFrame (s : Sys) (savePath : Option String) :
      Reachable s → Reachable ⟨requestSaveFrame s.cam savePath, s.trace⟩
  | capture (s : Sys) (script : List LoopStep) (l : LoopState) (c : CameraAPI)
      (ev : List Event) :
      Reachable s → loopFrame script s.cam [] = some (l, c, ev) →
      Reachable ⟨c, s.trace ++ ev⟩

/-- The state test each guarded operation makes on entry (`STATUS_CREATE == getStatus()`
in `connect` and `openDevice`, `STATUS_OPEN <= getStatus()` in the exposure calls and
`getSupportSize`, and so on); `destroy` makes none. -/
def Call.guard : Call → StatusInfo → Bool
  | .connect _ _ _, st => decide (st = .STATUS_CREATE)
  | .connectByPath _ _, st => decide (st = .STATUS_CREATE)
  | .autoExposure _ _, st => decide (StatusInfo.STATUS_OPEN.toNat ≤ st.toNat)
  | .updateExposure _ _, st => decide (StatusInfo.STATUS_OPEN.toNat ≤ st.toNat)
  | .getSupportSize _ _, st => decide (StatusInfo.STATUS_OPEN.toNat ≤ st.toNat)
  | .setFrameSize _ _ _ _, st => decide (st = .STATUS_OPEN)
  | .setFrameCallback _ _, st => decide (st = .STATUS_INIT)
  | .setPreview _, st => decide (st = .STATUS_INIT)
  | .start _, st => decide (st = .STATUS_INIT)
  | .stop _, st => decide (st = .STATUS_RUN)
  | .close _, st => decide (st = .STATUS_INIT)
  | .destroy, _ => true

/-- The lifecycle moves: for each operation the one change of `status` it can make, as
the pair of the state before and the state after (`status = STATUS_OPEN` in `openDevice`
under the test for `STATUS_CREATE`, and so on).  Operations that never assign `status` have
no move; `destroy` is not a step of the lifecycle. -/
def Call.move : Call → StatusInfo → StatusInfo → Prop
  | .connect _ _ _, b, a => b = .STATUS_CREATE ∧ a = .STATUS_OPEN
  | .connectByPath _ _, b, a => b = .STATUS_CREATE ∧ a = .STATUS_OPEN
  | .setFrameSize _ _ _ _, b, a => b = .STATUS_OPEN ∧ a = .STATUS_INIT
  | .start _, b, a => b = .STATUS_INIT ∧ a = .STATUS_RUN
  | .stop _, b, a => b = .STATUS_RUN ∧ a = .STATUS_INIT
  | .close _, b, a => b = .STATUS_INIT ∧ a = .STATUS_CREATE
  | _, _, _ => False

/-! ## Resources held, read off the record of calls -/

/-- The descriptors a record of calls leaves open: each one returned by a successful
`open` and not passed to `close` since. -/
def openDescriptors (trace : List Event) : List Int :=
  trace.foldl (fun acc ev =>
    match ev with
    | .sys_open _ r => if 0 ≤ r then acc ++ [r] else acc
    | .sys_close fd _ => acc.erase fd
    | _ => acc) []

/-- The mappings a record of calls leaves in place: each region returned by a successful
`mmap` and not passed to `munmap` since. -/
def liveMappings (trace : List Event) : List (Int × Nat) :=
  trace.foldl (fun acc ev =>
    match ev with
    | .mmap len _ _ r => if r ≠ MAP_FAILED then acc ++ [(r, len)] else acc
    | .munmap start len _ => acc.erase (start, len)
    | _ => acc) []

/-- Run a sequence of public operations, stopping at undefined behaviour. -/
def runCalls : Sys → List Call → Option Sys
  | s, [] => some s
  | s, c :: rest =>
    match exec s c with
    | none => none
    | some r => runCalls r.2 rest

/-! ## The capture loop seen from the driver and the sinks -/

/-- A device that opens as descriptor 5 and advertises single-planar capture. -/
def exampleOpen : PathEnv := ⟨0, ⟨5, 0, 0, 0, 1, 0⟩⟩

/-- A driver that accepts the format; the decoder initialises and declares NV12. -/
def exampleFormat : FormatEnv := ⟨0, true, 0, .PIXEL_FORMAT_NV12, 0⟩

/-- A driver that grants four buffers of 8 bytes, mapped at 4096, 8192, 12288, 16384. -/
def exampleBuffers : BufferEnv :=
  ⟨0, true, fun _ => 0, fun i => ⟨8, 8 * i, 8, 8 * i⟩, fun i => 4096 * ((i : Int) + 1), fun _ => 0⟩

/-- As `exampleBuffers`, but `VIDIOC_QUERYBUF` fails for index 1. -/
def exampleBuffersQueryFails : BufferEnv :=
  ⟨0, true, fun i => if i = 1 then -1 else 0, fun i => ⟨8, 8 * i, 8, 8 * i⟩,
    fun i => 4096 * ((i : Int) + 1), fun _ => 0⟩

/-- A driver that grants four buffers of 2 bytes, mapped at 4096, 8192, 12288, 16384. -/
def exampleBuffersShort : BufferEnv :=
  ⟨0, true, fun _ => 0, fun i => ⟨2, 2 * i, 2, 2 * i⟩, fun i => 4096 * ((i : Int) + 1), fun _ => 0⟩

/-- A device whose `open` fails with `ENOENT` (errno 2). -/
def exampleOpenFails : PathEnv := ⟨0, ⟨-1, 2, 0, 0, 1, 0⟩⟩

/-- A Running camera on the compressed path with both sinks present: the object after
`connectByPath`, `setFrameSize 2 1 0`, `setFrameCallback 7`, `setPreview 9` and `start`. -/
def exampleRunning : CameraAPI where
  fd := 5
  frameWidth := 2
  frameHeight := 1
  frameFormat := 0
  useMultiplanar := false
  pixelBytes := 3
  out_buffer := none
  buffers := some [⟨4096, 8⟩, ⟨8192, 8⟩, ⟨12288, 8⟩, ⟨16384, 8⟩]
  decoder := some ⟨2, 1, .PIXEL_FORMAT_NV12⟩
  preview := some ⟨2, 1, .PIXEL_FORMAT_NV12, 9⟩
  frameCallback := 7
  frameCallback_onFrame := 2
  thread_camera := 1
  status := .STATUS_RUN
  saveFrameRequested := false
  debugSavePath := []

/-- The camera and its record of calls after `connectByPath`, `setFrameSize 2 1 0`,
`setFrameCallback 7`, `setPreview 9` and `start` on a fresh object, every call succeeding;
its object is `exampleRunning`. -/
def exampleRunningSys : Sys :=
  (runCalls Sys.init
    [.connectByPath (some "/dev/video0") exampleOpen,
     .setFrameSize 2 1 0 exampleFormat,
     .setFrameCallback 7 ⟨1, 2⟩,
     .setPreview 9,
     .start ⟨exampleBuffers, 0, 0, 1⟩]).getD Sys.init

/-- Two passes that each dequeue a buffer (indices 2 and 3); the decoder returns null for
the first and the bytes 1, 2, 3 for the second. -/
def exampleScript : List LoopStep :=
  [⟨.STATUS_RUN, 1, 0, 2, 5, 5, fun k => k, none, 0⟩,
   ⟨.STATUS_RUN, 1, 0, 3, 5, 5, fun k => k, some [1, 2, 3], 0⟩]

/-! ## Frame lemmas: what the buffer pool operations leave alone -/

theorem queryMemory_frame (e : BufferEnv) (l : List Nat) (c : CameraAPI) (ev : List Event)
    (a : ActionInfo) (c2 : CameraAPI) (ev2 : List Event)
    (h : queryMemory e l c ev = some (a, c2, ev2)) :
    c2 = { c with buffers := c2.buffers } := by
  induction l generalizing c ev with
  | nil =>
    simp only [queryMemory, Option.some.injEq, Prod.mk.injEq] at h
    rw [← h.2.1]
  | cons i rest ih =>
    simp only [queryMemory] at h
    split at h
    · simp only [Option.some.injEq, Prod.mk.injEq] at h
      rw [← h.2.1]
    · split at h
      · exact absurd h (by simp)
      · split at h
        · simp only [Option.some.injEq, Prod.mk.injEq] at h
          rw [← h.2.1]
        · have := ih _ _ h
          rw [this]

theorem prepareBuffer_frame (c : CameraAPI) (e : BufferEnv) (a : ActionInfo) (c2 : CameraAPI)
    (ev2 : List Event) (h : prepareBuffer c e = some (a, c2, ev2)) :
    c2 = { c with buffers := c2.buffers } := by
  simp only [prepareBuffer] at h
  split at h
  · simp only [Option.some.injEq, Prod.mk.injEq] at h
    rw [← h.2.1]
  · split at h
    · exact absurd h (by simp)
    · rename_i a1 c1 ev1 hq
      have hf := queryMemory_frame _ _ _ _ _ _ _ hq
      split at h
      · simp only [Option.some.injEq, Prod.mk.injEq] at h
        rw [← h.2.1, hf]
      · simp only [Option.some.injEq, Prod.mk.injEq] at h
        rw [← h.2.1, hf]

theorem start_frame (c : CameraAPI) (e : StartEnv) (a : ActionInfo) (c2 : CameraAPI)
    (ev2 : List Event) (h : start c e = some (a, c2, ev2)) :
    (c.status ≠ .STATUS_INIT ∧ c2 = c) ∨
    (c.status = .STATUS_INIT ∧
      (c2 = { c with buffers := c2.buffers } ∨
       c2 = { c with buffers := c2.buffers, status := .STATUS_RUN } ∨
       c2 = { c with buffers := c2.buffers, status := .STATUS_RUN,
                     thread_camera := e.thread })) := by
  simp only [start] at h
  split at h
  · rename_i hs
    refine Or.inr ⟨hs, ?_⟩
    split at h
    · exact absurd h (by simp)
    · rename_i a1 c1 ev1 hp
      have hf := prepareBuffer_frame _ _ _ _ _ hp
      split at h
      · split at h
        · simp only [Option.some.injEq, Prod.mk.injEq] at h
          left; rw [← h.2.1]; exact hf
        · split at h
          · simp only [Option.some.injEq, Prod.mk.injEq] at h
            right; right; rw [← h.2.1, hf]
          · simp only [Option.some.injEq, Prod.mk.injEq] at h
            right; left; rw [← h.2.1, hf]
      · simp only [Option.some.injEq, Prod.mk.injEq] at h
        left; rw [← h.2.1]; exact hf
  · rename_i hs
    simp only [Option.some.injEq, Prod.mk.injEq] at h
    exact Or.inl ⟨hs, h.2.1.symm⟩

theorem stop_frame (c : CameraAPI) (e : StopEnv) (a : ActionInfo) (c2 : CameraAPI)
    (ev2 : List Event) (h : stop c e = some (a, c2, ev2)) :
    (c.status ≠ .STATUS_RUN ∧ c2 = c ∧ a = .ACTION_ERROR_STOP) ∨
    (c.status = .STATUS_RUN ∧ c2 = { c with status := .STATUS_INIT }) := by
  simp only [stop] at h
  split at h
  · rename_i hs
    split at h
    · exact absurd h (by simp)
    · split at h
      · exact absurd h (by simp)
      · simp only [Option.some.injEq, Prod.mk.injEq] at h
        exact Or.inr ⟨hs, h.2.1.symm⟩
  · rename_i hs
    simp only [Option.some.injEq, Prod.mk.injEq] at h
    exact Or.inl ⟨hs, h.2.1.symm, h.1.symm⟩

theorem wrapInt32_of_range (x : Int) (h1 : -2 ^ 31 ≤ x) (h2 : x < 2 ^ 31) : wrapInt32 x = x := by
  unfold wrapInt32
  omega

theorem pixelBytesPacked_eq (w h : Int) (hp : 0 < w * h) (hr : w * h * 3 < 2 ^ 31) :
    (pixelBytesPacked w h : Int) = w * h * 2 := by
  unfold pixelBytesPacked toSizeT
  generalize w * h = p at *
  rw [wrapInt32_of_range p (by omega) (by omega), wrapInt32_of_range (p * 2) (by omega) (by omega)]
  rw [Int.toNat_of_nonneg (by omega)]
  omega

theorem pixelBytesNV12_eq (w h : Int) (hp : 0 < w * h) (hr : w * h * 3 < 2 ^ 31) :
    (pixelBytesNV12 w h : Int) = w * h * 3 / 2 := by
  unfold pixelBytesNV12 toSizeT
  generalize w * h = p at *
  rw [wrapInt32_of_range p (by omega) (by omega), wrapInt32_of_range (p * 3) (by omega) (by omega)]
  rw [Int.tdiv_eq_ediv (by omega : (0 : Int) ≤ p * 3) (by omega : (0 : Int) ≤ 2)]
  rw [Int.toNat_of_nonneg (by omega)]
  omega

theorem processFrame_frame (c : CameraAPI) (st : LoopStep) (c2 : CameraAPI) (ev : List Event)
    (h : processFrame c st = some (c2, ev)) :
    c2 = { c with saveFrameRequested := false } := by
  simp only [processFrame] at h
  repeat' split at h
  all_goals simp_all

theorem loopFrame_frame (script : List LoopStep) (c : CameraAPI) (ev : List Event)
    (l : LoopState) (c2 : CameraAPI) (ev2 : List Event)
    (h : loopFrame script c ev = some (l, c2, ev2)) :
    c2 = { c with saveFrameRequested := c2.saveFrameRequested } := by
  induction script generalizing c ev with
  | nil =>
    simp only [loopFrame, Option.some.injEq, Prod.mk.injEq] at h
    rw [← h.2.1]
  | cons st rest ih =>
    simp only [loopFrame] at h
    split at h
    · simp only [Option.some.injEq, Prod.mk.injEq] at h
      rw [← h.2.1]
    · split at h
      · exact ih _ _ h
      · split at h
        · exact ih _ _ h
        · split at h
          · simp only [Option.some.injEq, Prod.mk.injEq] at h
            rw [← h.2.1]
          · split at h
            · exact absurd h (by simp)
            · rename_i c1 evb hp
              have h1 := processFrame_frame _ _ _ _ hp
              have h2 := ih _ _ h
              rw [h2, h1]

/-- In the states Created and Opened of a reachable camera there is no decoder. -/
theorem reachable_no_decoder_before_configure (s : Sys) (hr : Reachable s) :
    (s.cam.status = .STATUS_CREATE ∨ s.cam.status = .STATUS_OPEN) → s.cam.decoder = none := by
  induction hr with
  | init => intro _; rfl
  | call s c a t _ hx ih =>
    cases c with
    | connect p v e =>
      simp only [exec, Option.some.injEq, Prod.mk.injEq, Sys.after] at hx
      rw [← hx.2]
      simp only [connect, openDevice]
      repeat' split
      all_goals simp_all
    | connectByPath p e =>
      simp only [exec, Option.some.injEq, Prod.mk.injEq, Sys.after] at hx
      rw [← hx.2]
      simp only [connectByPath, openDevice]
      repeat' split
      all_goals simp_all
    | autoExposure b r =>
      simp only [exec, Option.some.injEq, Prod.mk.injEq, Sys.after] at hx
      rw [← hx.2]
      simp only [autoExposure]
      repeat' split
      all_goals simp_all
    | updateExposure l r =>
      simp only [exec, Option.some.injEq, Prod.mk.injEq, Sys.after] at hx
      rw [← hx.2]
      simp only [updateExposure]
      repeat' split
      all_goals simp_all
    | getSupportSize f z =>
      simp only [exec, Option.some.injEq, Prod.mk.injEq, Sys.after] at hx
      rw [← hx.2]
      simp only [getSupportSize]
      repeat' split
      all_goals simp_all
    | setFrameSize w hh f e =>
      simp only [exec, Option.some.injEq, Prod.mk.injEq, Sys.after] at hx
      rw [← hx.2]
      simp only [setFrameSize]
      repeat' split
      all_goals simp_all
    | setFrameCallback cb e =>
      simp only [exec, Option.some.injEq, Prod.mk.injEq, Sys.after] at hx
      rw [← hx.2]
      simp only [setFrameCallback]
      repeat' split
      all_goals simp_all
    | setPreview w =>
      simp only [exec, Option.some.injEq, Prod.mk.injEq, Sys.after] at hx
      rw [← hx.2]
      simp only [setPreview]
      repeat' split
      all_goals simp_all
    | start e =>
      simp only [exec, Option.map_eq_some', Sys.after, Prod.mk.injEq] at hx
      obtain ⟨⟨a1, c1, ev1⟩, hst, -, ht⟩ := hx
      rw [← ht]
      rcases start_frame _ _ _ _ _ hst with ⟨-, h2⟩ | ⟨hs, h2 | h2 | h2⟩
      · simp only; rw [h2]; exact ih
      · simp only; rw [h2]; simp [hs]
      · simp only; rw [h2]; simp
      · simp only; rw [h2]; simp
    | stop e =>
      simp only [exec, Option.map_eq_some', Sys.after, Prod.mk.injEq] at hx
      obtain ⟨⟨a1, c1, ev1⟩, hst, -, ht⟩ := hx
      rw [← ht]
      rcases stop_frame _ _ _ _ _ hst with ⟨-, h2, -⟩ | ⟨hs, h2⟩
      · simp only; rw [h2]; exact ih
      · simp only; rw [h2]; simp
    | close e =>
      simp only [exec, Option.some.injEq, Prod.mk.injEq, Sys.after] at hx
      rw [← hx.2]
      simp only [close]
      repeat' split
      all_goals simp_all
    | destroy =>
      simp only [exec, Option.some.injEq, Prod.mk.injEq, Sys.after] at hx
      rw [← hx.2]
      simp [destroy]
  | requestSaveFrame s p _ ih =>
    simp only [requestSaveFrame]
    repeat' split
    all_goals simp_all
  | capture s script l c ev _ hl ih =>
    have := loopFrame_frame _ _ _ _ _ _ hl
    simp only
    rw [this]
    exact ih

/-! ## Lifecycle claims -/

/-- Claim C1. A guarded operation called in a state that fails its entry test returns, and the
camera object afterwards equals the object before: the lifecycle state and every other
field are unchanged.  In particular a `start` in a state other than Running (Created and
Opened among them) does not end in Running. -/
theorem wrong_state_call_leaves_object_unchanged (s : Sys) (c : Call)
    (h : c.guard s.cam.status = false) :
    ∃ a t, exec s c = some (a, t) ∧ t.cam = s.cam ∧
      (s.cam.status ≠ .STATUS_RUN → t.cam.status ≠ .STATUS_RUN) := by
  have key : ∃ a t, exec s c = some (a, t) ∧ t.cam = s.cam := by
    cases c with
    | connect p v e =>
      have hs : s.cam.status ≠ .STATUS_CREATE := by simpa [Call.guard] using h
      exact ⟨_, _, rfl, by simp [Sys.after, connect, hs]⟩
    | connectByPath p e =>
      have hs : s.cam.status ≠ .STATUS_CREATE := by simpa [Call.guard] using h
      refine ⟨_, _, rfl, ?_⟩
      simp only [Sys.after, connectByPath, openDevice]
      split <;> simp [hs]
    | autoExposure b r =>
      have hs : ¬ StatusInfo.STATUS_OPEN.toNat ≤ s.cam.status.toNat := by
        simpa [Call.guard] using h
      exact ⟨_, _, rfl, by simp [Sys.after, autoExposure, hs]⟩
    | updateExposure l r =>
      have hs : ¬ StatusInfo.STATUS_OPEN.toNat ≤ s.cam.status.toNat := by
        simpa [Call.guard] using h
      exact ⟨_, _, rfl, by simp [Sys.after, updateExposure, hs]⟩
    | getSupportSize f z =>
      have hs : ¬ StatusInfo.STATUS_OPEN.toNat ≤ s.cam.status.toNat := by
        simpa [Call.guard] using h
      exact ⟨_, _, rfl, by simp [Sys.after, getSupportSize, hs]⟩
    | setFrameSize w hh f e =>
      have hs : s.cam.status ≠ .STATUS_OPEN := by simpa [Call.guard] using h
      exact ⟨_, _, rfl, by simp [Sys.after, setFrameSize, hs]⟩
    | setFrameCallback cb e =>
      have hs : s.cam.status ≠ .STATUS_INIT := by simpa [Call.guard] using h
      exact ⟨_, _, rfl, by simp [Sys.after, setFrameCallback, hs]⟩
    | setPreview w =>
      have hs : s.cam.status ≠ .STATUS_INIT := by simpa [Call.guard] using h
      exact ⟨_, _, rfl, by simp [Sys.after, setPreview, hs]⟩
    | start e =>
      have hs : s.cam.status ≠ .STATUS_INIT := by simpa [Call.guard] using h
      exact ⟨.ACTION_ERROR_START, ⟨s.cam, s.trace ++ []⟩, by simp [exec, start, hs, Sys.after], rfl⟩
    | stop e =>
      have hs : s.cam.status ≠ .STATUS_RUN := by simpa [Call.guard] using h
      exact ⟨.ACTION_ERROR_STOP, ⟨s.cam, s.trace ++ []⟩, by simp [exec, stop, hs, Sys.after], rfl⟩
    | close e =>
      have hs : s.cam.status ≠ .STATUS_INIT := by simpa [Call.guard] using h
      exact ⟨_, _, rfl, by simp [Sys.after, close, hs]⟩
    | destroy => simp [Call.guard] at h
  obtain ⟨a, t, hx, ht⟩ := key
  exact ⟨a, t, hx, ht, by rw [ht]; exact id⟩

/-- Witness of C1: `start` on a freshly constructed (Created) camera. -/
theorem wrong_state_call_leaves_object_unchanged_witness :
    ∃ a t, exec Sys.init (.start ⟨⟨0, true, fun _ => 0, fun _ => ⟨0, 0, 0, 0⟩, fun _ => 0,
        fun _ => 0⟩, 0, 0, 1⟩) = some (a, t) ∧ t.cam = Sys.init.cam ∧
      (Sys.init.cam.status ≠ .STATUS_RUN → t.cam.status ≠ .STATUS_RUN) :=
  wrong_state_call_leaves_object_unchanged Sys.init _ (by decide)

/-- Claim C2 (failing input). `close` on a freshly constructed camera (state Created), whose
entry test `STATUS_INIT == getStatus()` fails, returns `ACTION_SUCCESS` and changes
nothing, whatever the environment: the wrong-state branch never assigns an error. -/
theorem close_in_created_returns_success (e : CloseEnv) :
    exec Sys.init (.close e) = some (.ACTION_SUCCESS, Sys.init) := by
  simp [exec, close, Sys.after, Sys.init, CameraAPI.new]

/-- Claim C3. Lifecycle step invariant: after any public operation other than `destroy`,
from any state and with any results of the calls it makes, the lifecycle state is the
state before or the operation made its one move: Created to Opened (`connect`,
`connectByPath`), Opened to Configured (`setFrameSize`), Configured to Running (`start`),
Running to Configured (`stop`), Configured to Created (`close`).  `requestSaveFrame`, the
one remaining public operation that writes to the object, leaves the state as it is. -/
theorem lifecycle_step (s t : Sys) (c : Call) (a : ActionInfo) (hd : c ≠ .destroy)
    (h : exec s c = some (a, t)) :
    (t.cam.status = s.cam.status ∨ c.move s.cam.status t.cam.status) ∧
      ∀ p, (requestSaveFrame s.cam p).status = s.cam.status := by
  refine ⟨?_, fun p => ?_⟩
  swap
  · cases p with
    | none => rfl
    | some q =>
      simp only [requestSaveFrame]
      split <;> rfl
  cases c with
  | connect p v e =>
    simp only [exec, Option.some.injEq, Prod.mk.injEq, Sys.after] at h
    rw [← h.2]
    simp only [Call.move, connect, openDevice]
    repeat' split
    all_goals simp_all
  | connectByPath p e =>
    simp only [exec, Option.some.injEq, Prod.mk.injEq, Sys.after] at h
    rw [← h.2]
    simp only [Call.move, connectByPath, openDevice]
    repeat' split
    all_goals simp_all
  | autoExposure b r =>
    simp only [exec, Option.some.injEq, Prod.mk.injEq, Sys.after] at h
    rw [← h.2]
    simp only [Call.move, autoExposure]
    repeat' split
    all_goals simp_all
  | updateExposure l r =>
    simp only [exec, Option.some.injEq, Prod.mk.injEq, Sys.after] at h
    rw [← h.2]
    simp only [Call.move, updateExposure]
    repeat' split
    all_goals simp_all
  | getSupportSize f z =>
    simp only [exec, Option.some.injEq, Prod.mk.injEq, Sys.after] at h
    rw [← h.2]
    simp only [Call.move, getSupportSize]
    repeat' split
    all_goals simp_all
  | setFrameSize w hh f e =>
    simp only [exec, Option.some.injEq, Prod.mk.injEq, Sys.after] at h
    rw [← h.2]
    simp only [Call.move, setFrameSize]
    repeat' split
    all_goals simp_all
  | setFrameCallback cb e =>
    simp only [exec, Option.some.injEq, Prod.mk.injEq, Sys.after] at h
    rw [← h.2]
    simp only [Call.move, setFrameCallback]
    repeat' split
    all_goals simp_all
  | setPreview w =>
    simp only [exec, Option.some.injEq, Prod.mk.injEq, Sys.after] at h
    rw [← h.2]
    simp only [Call.move, setPreview]
    repeat' split
    all_goals simp_all
  | start e =>
    simp only [exec, Option.map_eq_some', Sys.after, Prod.mk.injEq] at h
    obtain ⟨⟨a1, c1, ev1⟩, hst, -, ht⟩ := h
    rw [← ht]
    rcases start_frame _ _ _ _ _ hst with ⟨-, h2⟩ | ⟨hs, h2 | h2 | h2⟩
    · left; simp [h2]
    · left; simp only; rw [h2]
    · right; simp only [Call.move]; rw [h2]; exact ⟨hs, rfl⟩
    · right; simp only [Call.move]; rw [h2]; exact ⟨hs, rfl⟩
  | stop e =>
    simp only [exec, Option.map_eq_some', Sys.after, Prod.mk.injEq] at h
    obtain ⟨⟨a1, c1, ev1⟩, hst, -, ht⟩ := h
    rw [← ht]
    rcases stop_frame _ _ _ _ _ hst with ⟨-, h2, -⟩ | ⟨hs, h2⟩
    · left; simp [h2]
    · right; simp only [Call.move]; rw [h2]; exact ⟨hs, rfl⟩
  | close e =>
    simp only [exec, Option.some.injEq, Prod.mk.injEq, Sys.after] at h
    rw [← h.2]
    simp only [Call.move, close]
    repeat' split
    all_goals simp_all
  | destroy => exact absurd rfl hd

/-- Witness of C3: a `connectByPath` that goes through on a fresh camera. -/
theorem lifecycle_step_witness :
    (Sys.init.after (connectByPath Sys.init.cam (some "/dev/video0")
        ⟨0, ⟨5, 0, 0, 0, 1, 0⟩⟩)).2.cam.status = Sys.init.cam.status ∨
      (Call.connectByPath (some "/dev/video0") ⟨0, ⟨5, 0, 0, 0, 1, 0⟩⟩).move
        Sys.init.cam.status
        (Sys.init.after (connectByPath Sys.init.cam (some "/dev/video0")
          ⟨0, ⟨5, 0, 0, 0, 1, 0⟩⟩)).2.cam.status :=
  (lifecycle_step Sys.init _ (.connectByPath (some "/dev/video0") ⟨0, ⟨5, 0, 0, 0, 1, 0⟩⟩) _
    (by simp) rfl).1

/-! ## Format negotiation claims -/

/-- Claim C4. For positive `w` and `h` with `w * h * 3` inside the signed 32-bit range, a
`setFrameSize w h f` that returns success on a reachable camera in state Opened leaves:
for the uncompressed selector (`f ≠ 0`) `pixelBytes = w * h * 2` and no decoder; for the
compressed selector (`f = 0`) a live decoder and `pixelBytes = ⌊w * h * 3 / 2⌋` when the
decoder declares NV12, else `pixelBytes = w * h * 2`. -/
theorem setFrameSize_pixelBytes (s t : Sys) (w h f : Int) (e : FormatEnv)
    (hr : Reachable s) (hs : s.cam.status = .STATUS_OPEN)
    (hw : 0 < w) (hh : 0 < h) (hrange : w * h * 3 < 2 ^ 31)
    (hx : exec s (.setFrameSize w h f e) = some (.ACTION_SUCCESS, t)) :
    (f ≠ 0 → (t.cam.pixelBytes : Int) = w * h * 2 ∧ t.cam.decoder = none) ∧
    (f = 0 → ∃ d, t.cam.decoder = some d ∧
      (d.pixelFormat = .PIXEL_FORMAT_NV12 → (t.cam.pixelBytes : Int) = w * h * 3 / 2) ∧
      (d.pixelFormat ≠ .PIXEL_FORMAT_NV12 → (t.cam.pixelBytes : Int) = w * h * 2)) := by
  have hp : 0 < w * h := Int.mul_pos hw hh
  have hdec := reachable_no_decoder_before_configure s hr (Or.inr hs)
  have h2 := pixelBytesPacked_eq w h hp hrange
  have h3 := pixelBytesNV12_eq w h hp hrange
  simp only [exec, Option.some.injEq, Prod.mk.injEq, Sys.after] at hx
  obtain ⟨ha, ht⟩ := hx
  rw [← ht]
  simp only [setFrameSize, hs, if_true] at ha ⊢
  constructor
  · intro hf
    split
    · rename_i hneg
      simp [hneg, hf] at ha
    · simp [hf, h2, hdec]
  · intro hf
    split
    · rename_i hneg
      simp [hneg, hf] at ha
    · by_cases hi : e.decoderInitRet = 0
      · by_cases hn : e.decoderPixelFormat = .PIXEL_FORMAT_NV12
        · simp [hf, hi, hn, h3]
        · simp [hf, hi, hn, h2]
      · rename_i hneg
        simp [hneg, hf, hi] at ha

/-- Witness of C4: 1280x720 compressed with a decoder that declares NV12, on a camera
opened by `connectByPath`, gives `pixelBytes = 1382400`. -/
theorem setFrameSize_pixelBytes_witness :
    ((Sys.init.after (connectByPath Sys.init.cam (some "/dev/video0")
        ⟨0, ⟨5, 0, 0, 0, 1, 0⟩⟩)).2.after
      (setFrameSize (Sys.init.after (connectByPath Sys.init.cam (some "/dev/video0")
        ⟨0, ⟨5, 0, 0, 0, 1, 0⟩⟩)).2.cam 1280 720 0
        ⟨0, true, 0, .PIXEL_FORMAT_NV12, 0⟩)).2.cam.pixelBytes = 1382400 := by
  have hreach : Reachable (Sys.init.after (connectByPath Sys.init.cam (some "/dev/video0")
      ⟨0, ⟨5, 0, 0, 0, 1, 0⟩⟩)).2 :=
    Reachable.call Sys.init (.connectByPath (some "/dev/video0") ⟨0, ⟨5, 0, 0, 0, 1, 0⟩⟩) _ _
      Reachable.init rfl
  have h := setFrameSize_pixelBytes _ _ 1280 720 0 ⟨0, true, 0, .PIXEL_FORMAT_NV12, 0⟩ hreach
    (by decide) (by decide) (by decide) (by decide) rfl
  obtain ⟨d, hd, hnv, -⟩ := h.2 rfl
  have hd2 : d.pixelFormat = .PIXEL_FORMAT_NV12 := by
    have : some d = some (⟨1280, 720, .PIXEL_FORMAT_NV12⟩ : DecoderFactory) := by
      rw [← hd]; decide
    rw [Option.some.inj this]
  exact Int.ofNat_inj.mp ((hnv hd2).trans (by norm_num))

/-- Claim C5. When `setFrameSize` is called in state Opened with the compressed selector,
the driver accepts the format and the decoder fails to initialise, the call returns the
decoder error and keeps nothing: the state is still Opened, there is no decoder, and
`pixelBytes`, `frameWidth`, `frameHeight`, `frameFormat` and the scratch buffer are as
before the call. -/
theorem setFrameSize_decoder_failure (s : Sys) (w h : Int) (e : FormatEnv)
    (hs : s.cam.status = .STATUS_OPEN) (hfmt : 0 ≤ e.sfmtRet) (hinit : e.decoderInitRet ≠ 0) :
    ∃ t, exec s (.setFrameSize w h 0 e) = some (.ACTION_ERROR_DECODER, t) ∧
      t.cam.status = .STATUS_OPEN ∧ t.cam.decoder = none ∧
      t.cam.pixelBytes = s.cam.pixelBytes ∧ t.cam.frameWidth = s.cam.frameWidth ∧
      t.cam.frameHeight = s.cam.frameHeight ∧ t.cam.frameFormat = s.cam.frameFormat ∧
      t.cam.out_buffer = s.cam.out_buffer := by
  have hneg : ¬ e.sfmtRet < 0 := by omega
  refine ⟨(s.after (setFrameSize s.cam w h 0 e)).2, ?_, ?_⟩
  · simp [exec, Sys.after, setFrameSize, hs, hneg, hinit]
  · simp [Sys.after, setFrameSize, hs, hneg, hinit]

/-- Witness of C5: an opened camera, 640x480 compressed, decoder initialisation
returning `-1`. -/
theorem setFrameSize_decoder_failure_witness :
    ∃ t, exec (Sys.init.after (connectByPath Sys.init.cam (some "/dev/video0")
        ⟨0, ⟨5, 0, 0, 0, 1, 0⟩⟩)).2
        (.setFrameSize 640 480 0 ⟨0, true, -1, .PIXEL_FORMAT_NV12, 0⟩)
        = some (.ACTION_ERROR_DECODER, t) ∧
      t.cam.status = .STATUS_OPEN ∧ t.cam.decoder = none ∧
      t.cam.pixelBytes = 0 ∧ t.cam.frameWidth = 0 ∧
      t.cam.frameHeight = 0 ∧ t.cam.frameFormat = 0 ∧
      t.cam.out_buffer = none :=
  setFrameSize_decoder_failure (Sys.init.after (connectByPath Sys.init.cam (some "/dev/video0")
        ⟨0, ⟨5, 0, 0, 0, 1, 0⟩⟩)).2 640 480 ⟨0, true, -1, .PIXEL_FORMAT_NV12, 0⟩
    (by decide) (by decide) (by decide)

/-- Claim C6. From every state of the camera object (the reachable ones among them)
`destroy` returns success and leaves every field equal to its value in a freshly
constructed object; hence `destroy` applied twice gives the same object as `destroy`
applied once. -/
theorem destroy_resets_every_field (c : CameraAPI) :
    (destroy c).1 = .ACTION_SUCCESS ∧ (destroy c).2.1 = CameraAPI.new ∧
      (destroy (destroy c).2.1).2.1 = (destroy c).2.1 := by
  simp [destroy, CameraAPI.new]

/-! ## Teardown and start-failure claims -/

/-- Claim C7 (failing input). `destroy` on a camera that is Opened, and on one that is
Running with a callback registered, resets the object but issues no `close`, no `munmap`
and no `DeleteGlobalRef`: descriptor 5 stays open, the four mappings stay in place and the
reference 7 is forgotten, not released.  Only the decoder and the buffer table are
freed. -/
theorem destroy_leaves_resources_held :
    (∃ t, runCalls Sys.init
        [.connectByPath (some "/dev/video0") exampleOpen, .destroy] = some t ∧
      t.cam = CameraAPI.new ∧ openDescriptors t.trace = [5]) ∧
    (∃ s t, runCalls Sys.init
        [.connectByPath (some "/dev/video0") exampleOpen,
         .setFrameSize 2 1 0 exampleFormat,
         .setFrameCallback 7 ⟨1, 2⟩,
         .start ⟨exampleBuffers, 0, 0, 1⟩] = some s ∧
      s.cam.status = .STATUS_RUN ∧ s.cam.frameCallback = 7 ∧
      exec s .destroy = some (.ACTION_SUCCESS, t) ∧
      t.cam = CameraAPI.new ∧ openDescriptors t.trace = [5] ∧
      liveMappings t.trace = [(4096, 8), (8192, 8), (12288, 8), (16384, 8)] ∧
      Event.DeleteGlobalRef 7 ∉ t.trace ∧ Event.decoder_delete ∈ t.trace) :=
  ⟨⟨_, rfl, by decide, by decide⟩,
   ⟨_, _, rfl, by decide, by decide, rfl, by decide, by decide, by decide, by decide,
     by decide⟩⟩

/-- Claim C8 (failing input). On a Configured camera, a `start` whose thread creation fails
returns `ACTION_ERROR_START` with the state already Running and the four slots mapped; a
`start` whose `VIDIOC_QUERYBUF` fails for index 1 returns `ACTION_ERROR_START` in state
Configured with the buffer table allocated and slot 0 still mapped. -/
theorem start_failure_keeps_allocations :
    ∃ s, runCalls Sys.init
        [.connectByPath (some "/dev/video0") exampleOpen,
         .setFrameSize 2 1 1 exampleFormat] = some s ∧
      s.cam.status = .STATUS_INIT ∧ s.cam.buffers = none ∧ liveMappings s.trace = [] ∧
      (∃ t, exec s (.start ⟨exampleBuffers, 0, 11, 1⟩) = some (.ACTION_ERROR_START, t) ∧
        t.cam.status = .STATUS_RUN ∧
        t.cam.buffers = some [⟨4096, 8⟩, ⟨8192, 8⟩, ⟨12288, 8⟩, ⟨16384, 8⟩] ∧
        liveMappings t.trace = [(4096, 8), (8192, 8), (12288, 8), (16384, 8)]) ∧
      (∃ t, exec s (.start ⟨exampleBuffersQueryFails, 0, 0, 1⟩)
          = some (.ACTION_ERROR_START, t) ∧
        t.cam.status = .STATUS_INIT ∧
        t.cam.buffers = some [⟨4096, 8⟩, ⟨0, 0⟩, ⟨0, 0⟩, ⟨0, 0⟩] ∧
        liveMappings t.trace = [(4096, 8)]) :=
  ⟨_, rfl, by decide, by decide, by decide,
   ⟨_, rfl, by decide, by decide, by decide⟩,
   ⟨_, rfl, by decide, by decide, by decide⟩⟩

/-! ## Buffer pool and capture loop claims -/

theorem loopFrame_append (pre tail : List LoopStep) (c c2 : CameraAPI) (ev ev2 : List Event)
    (h : loopFrame pre c ev = some (.looping, c2, ev2)) :
    loopFrame (pre ++ tail) c ev = loopFrame tail c2 ev2 := by
  induction pre generalizing c ev with
  | nil =>
    simp only [loopFrame, Option.some.injEq, Prod.mk.injEq, true_and] at h
    rw [List.nil_append, h.1, h.2]
  | cons st rest ih =>
    simp only [List.cons_append, loopFrame] at h ⊢
    split at h
    · simp at h
    · rename_i hrun
      rw [if_neg hrun]
      split at h
      · rename_i hneg
        rw [if_pos hneg]
        exact ih _ _ h
      · rename_i hneg
        rw [if_neg hneg]
        split at h
        · rename_i hz
          rw [if_pos hz]
          exact ih _ _ h
        · rename_i hz
          rw [if_neg hz]
          split at h
          · simp at h
          · rename_i hdq
            rw [if_neg hdq]
            split at h
            · simp at h
            · rename_i c1 evb hp
              exact ih _ _ h

theorem loopFrame_idle (script tail : List LoopStep) (c : CameraAPI) (ev : List Event)
    (hs : ∀ st ∈ script, st.status = .STATUS_RUN ∧ st.selectRet = 0) :
    loopFrame (script ++ tail) c ev =
      loopFrame tail c (ev ++ script.map (fun _ => Event.select (c.fd + 1) 0)) := by
  induction script generalizing ev with
  | nil => simp
  | cons st rest ih =>
    obtain ⟨h1, h2⟩ := hs st (List.mem_cons_self _ _)
    simp only [List.cons_append, loopFrame, h1, ne_eq, not_true_eq_false, if_false, h2,
      lt_self_iff_false, if_true]
    have := ih (ev ++ [Event.select (c.fd + 1) 0]) (fun x hx => hs x (List.mem_cons_of_mem _ hx))
    simpa using this

/-- Claim C11. For every number of consecutive passes that read the state Running and
whose readiness wait times out (`select` returns 0), the capture loop is still running
after the last of them, has changed nothing in the object, and has made one `select` call
per pass and no other call: no dequeue, no delivery, no enqueue.  It leaves the loop at
the first later pass that reads a state other than Running, again without any further
call. -/
theorem loopFrame_timeouts_keep_looping (script : List LoopStep) (c : CameraAPI)
    (hs : ∀ st ∈ script, st.status = .STATUS_RUN ∧ st.selectRet = 0) :
    loopFrame script c [] =
        some (.looping, c, List.replicate script.length (Event.select (c.fd + 1) 0)) ∧
      ∀ st rest, st.status ≠ .STATUS_RUN →
        loopFrame (script ++ st :: rest) c [] =
          some (.returned, c, List.replicate script.length (Event.select (c.fd + 1) 0)) := by
  have hmap : script.map (fun _ => Event.select (c.fd + 1) 0)
      = List.replicate script.length (Event.select (c.fd + 1) 0) := by
    induction script with
    | nil => rfl
    | cons st rest ih =>
      simp only [List.map_cons, List.length_cons, List.replicate_succ]
      rw [ih (fun x hx => hs x (List.mem_cons_of_mem _ hx))]
  constructor
  · have := loopFrame_idle script [] c [] hs
    rw [List.append_nil, List.nil_append, hmap] at this
    rw [this]
    rfl
  · intro st rest hst
    rw [loopFrame_idle script (st :: rest) c [] hs, List.nil_append, hmap]
    simp only [loopFrame, hst, ne_eq, not_false_eq_true, if_true]

/-- Witness of C11: three timeouts on the Running example camera. -/
theorem loopFrame_timeouts_keep_looping_witness :
    loopFrame (List.replicate 3 ⟨.STATUS_RUN, 0, 0, 0, 0, 0, fun _ => 0, none, 0⟩)
        exampleRunning [] =
      some (.looping, exampleRunning, List.replicate 3 (Event.select (5 + 1) 0)) :=
  (loopFrame_timeouts_keep_looping
    (List.replicate 3 ⟨.STATUS_RUN, 0, 0, 0, 0, 0, fun _ => 0, none, 0⟩) exampleRunning
    (by decide)).1

/-- Claim C12. In a pass that reads the state Running and finds the descriptor readable,
after any passes that left the loop running: the lifecycle state is the one the loop
started with; when the dequeue fails the loop returns in that pass, the object unchanged
and the `select` and the failed `VIDIOC_DQBUF` the only calls of the pass (no delivery, no
enqueue, whatever passes would follow); when the dequeue succeeds and the re-enqueue
fails, the loop goes on with the following passes and is still running after this one. -/
theorem loopFrame_dequeue_failure_is_fatal (pre rest : List LoopStep) (c0 c : CameraAPI)
    (ev0 : List Event) (st : LoopStep)
    (hpre : loopFrame pre c0 [] = some (.looping, c, ev0))
    (h1 : st.status = .STATUS_RUN) (h2 : 0 < st.selectRet) :
    c.status = c0.status ∧
    (st.dqbufRet < 0 →
      loopFrame (pre ++ st :: rest) c0 [] = some (.returned, c,
        ev0 ++ [Event.select (c.fd + 1) st.selectRet,
          Event.VIDIOC_DQBUF c.fd (bufType c.useMultiplanar) st.dqbufRet st.index])) ∧
    (0 ≤ st.dqbufRet → st.qbufRet < 0 → ∀ c1 evb, processFrame c st = some (c1, evb) →
      c1.status = c0.status ∧
      loopFrame (pre ++ st :: rest) c0 [] = loopFrame rest c1
        (ev0 ++ [Event.select (c.fd + 1) st.selectRet,
          Event.VIDIOC_DQBUF c.fd (bufType c.useMultiplanar) st.dqbufRet st.index] ++ evb ++
          [Event.VIDIOC_QBUF c.fd st.index (bufType c.useMultiplanar) st.qbufRet]) ∧
      loopFrame (pre ++ [st]) c0 [] = some (.looping, c1,
        ev0 ++ [Event.select (c.fd + 1) st.selectRet,
          Event.VIDIOC_DQBUF c.fd (bufType c.useMultiplanar) st.dqbufRet st.index] ++ evb ++
          [Event.VIDIOC_QBUF c.fd st.index (bufType c.useMultiplanar) st.qbufRet])) := by
  have hn1 : ¬ st.selectRet < 0 := by omega
  have hn2 : ¬ st.selectRet = 0 := by omega
  have hst : c.status = c0.status := by
    have := loopFrame_frame _ _ _ _ _ _ hpre
    rw [this]
  refine ⟨hst, ?_, ?_⟩
  · intro h3
    rw [loopFrame_append pre (st :: rest) c0 c [] ev0 hpre]
    simp [loopFrame, h1, hn1, hn2, h3]
  · intro h3 _ c1 evb hp
    have hn3 : ¬ st.dqbufRet < 0 := by omega
    have hc1 := processFrame_frame _ _ _ _ hp
    refine ⟨by rw [hc1]; exact hst, ?_, ?_⟩
    · rw [loopFrame_append pre (st :: rest) c0 c [] ev0 hpre]
      simp [loopFrame, h1, hn1, hn2, hn3, hp]
    · rw [loopFrame_append pre [st] c0 c [] ev0 hpre]
      simp [loopFrame, h1, hn1, hn2, hn3, hp]

/-- Witness of C12: the first pass on the Running example camera, with a dequeue that
returns `-1`. -/
theorem loopFrame_dequeue_failure_is_fatal_witness :
    loopFrame ([] ++ (⟨.STATUS_RUN, 1, -1, 0, 0, 0, fun _ => 0, none, 0⟩ : LoopStep) :: exampleScript)
        exampleRunning [] =
      some (.returned, exampleRunning,
        [] ++ [Event.select (5 + 1) 1, Event.VIDIOC_DQBUF 5 (bufType false) (-1) 0]) :=
  (loopFrame_dequeue_failure_is_fatal [] exampleScript exampleRunning exampleRunning []
    ⟨.STATUS_RUN, 1, -1, 0, 0, 0, fun _ => 0, none, 0⟩ rfl rfl (by decide)).2.1 (by decide)

/-! ## Stop, then close -/

theorem queryMemory_table (e : BufferEnv) (l : List Nat) (c : CameraAPI) (ev : List Event)
    (a : ActionInfo) (c2 : CameraAPI) (ev2 : List Event) (tbl : List VideoBuffer)
    (ht : c.buffers = some tbl)
    (h : queryMemory e l c ev = some (a, c2, ev2)) :
    ∃ tbl2, c2.buffers = some tbl2 ∧ tbl2.length = tbl.length := by
  induction l generalizing c ev tbl with
  | nil =>
    simp only [queryMemory, Option.some.injEq, Prod.mk.injEq] at h
    rw [← h.2.1]
    exact ⟨tbl, ht, rfl⟩
  | cons i rest ih =>
    simp only [queryMemory, ht] at h
    split at h
    · simp only [Option.some.injEq, Prod.mk.injEq] at h
      rw [← h.2.1]
      exact ⟨tbl, ht, rfl⟩
    · split at h
      · simp only [Option.some.injEq, Prod.mk.injEq] at h
        rw [← h.2.1]
        exact ⟨_, rfl, by simp⟩
      · obtain ⟨tbl2, h1, h2⟩ := ih _ _ _ rfl h
        exact ⟨tbl2, h1, by rw [h2]; simp⟩

theorem prepareBuffer_success_table (c : CameraAPI) (e : BufferEnv) (c2 : CameraAPI)
    (ev2 : List Event) (h : prepareBuffer c e = some (.ACTION_SUCCESS, c2, ev2)) :
    ∃ tbl, c2.buffers = some tbl ∧ tbl.length = MAX_BUFFER_COUNT := by
  simp only [prepareBuffer] at h
  split at h
  · simp at h
  · split at h
    · simp at h
    · rename_i a1 c1 ev1 hq
      have hc1 : c1 = c2 := by
        split at h
        · simp only [Option.some.injEq, Prod.mk.injEq] at h
          exact h.2.1
        · simp only [Option.some.injEq, Prod.mk.injEq] at h
          exact h.2.1
      have ha1 : a1 = .ACTION_SUCCESS := by
        split at h
        · simp only [Option.some.injEq, Prod.mk.injEq] at h
          exact h.1
        · rename_i hne
          simpa using hne
      subst hc1
      by_cases hc : e.callocOk = true
      · simp only [hc, if_true] at hq
        obtain ⟨tbl2, h1, h2⟩ := queryMemory_table _ _ _ _ _ _ _ _ rfl hq
        exact ⟨tbl2, h1, by rw [h2]; simp⟩
      · have hr : List.range MAX_BUFFER_COUNT = [0, 1, 2, 3] := rfl
        simp only [hc, hr, queryMemory] at hq
        split at hq
        · simp only [Option.some.injEq, Prod.mk.injEq] at hq
          rw [ha1] at hq
          simp at hq
        · simp at hq

theorem start_running_table (c : CameraAPI) (e : StartEnv) (a : ActionInfo) (c2 : CameraAPI)
    (ev2 : List Event) (h : start c e = some (a, c2, ev2)) (hs : c.status = .STATUS_INIT)
    (h2 : c2.status = .STATUS_RUN) :
    ∃ tbl, c2.buffers = some tbl ∧ tbl.length = MAX_BUFFER_COUNT := by
  simp only [start, hs, if_true] at h
  split at h
  · simp at h
  · rename_i a1 c1 ev1 hp
    have hf := prepareBuffer_frame _ _ _ _ _ hp
    have hst : c1.status = .STATUS_INIT := by rw [hf]; exact hs
    split at h
    · rename_i ha
      rw [ha] at hp
      obtain ⟨tbl, ht, hl⟩ := prepareBuffer_success_table _ _ _ _ hp
      split at h
      · simp only [Option.some.injEq, Prod.mk.injEq] at h
        rw [← h.2.1, hst] at h2
        simp at h2
      · split at h
        · simp only [Option.some.injEq, Prod.mk.injEq] at h
          rw [← h.2.1]
          exact ⟨tbl, ht, hl⟩
        · simp only [Option.some.injEq, Prod.mk.injEq] at h
          rw [← h.2.1]
          exact ⟨tbl, ht, hl⟩
    · simp only [Option.some.injEq, Prod.mk.injEq] at h
      rw [← h.2.1, hst] at h2
      simp at h2

/-- A reachable Running camera has its buffer table allocated, with four slots. -/
theorem reachable_running_has_table (s : Sys) (hr : Reachable s) :
    s.cam.status = .STATUS_RUN → s.cam.buffers.map List.length = some MAX_BUFFER_COUNT := by
  induction hr with
  | init => intro h; simp [Sys.init, CameraAPI.new] at h
  | call s c a t _ hx ih =>
    cases c with
    | connect p v e =>
      simp only [exec, Option.some.injEq, Prod.mk.injEq, Sys.after] at hx
      rw [← hx.2]
      simp only [connect, openDevice]
      repeat' split
      all_goals simp_all
    | connectByPath p e =>
      simp only [exec, Option.some.injEq, Prod.mk.injEq, Sys.after] at hx
      rw [← hx.2]
      simp only [connectByPath, openDevice]
      repeat' split
      all_goals simp_all
    | autoExposure b r =>
      simp only [exec, Option.some.injEq, Prod.mk.injEq, Sys.after] at hx
      rw [← hx.2]
      simp only [autoExposure]
      repeat' split
      all_goals simp_all
    | updateExposure l r =>
      simp only [exec, Option.some.injEq, Prod.mk.injEq, Sys.after] at hx
      rw [← hx.2]
      simp only [updateExposure]
      repeat' split
      all_goals simp_all
    | getSupportSize f z =>
      simp only [exec, Option.some.injEq, Prod.mk.injEq, Sys.after] at hx
      rw [← hx.2]
      simp only [getSupportSize]
      repeat' split
      all_goals simp_all
    | setFrameSize w hh f e =>
      simp only [exec, Option.some.injEq, Prod.mk.injEq, Sys.after] at hx
      rw [← hx.2]
      simp only [setFrameSize]
      repeat' split
      all_goals simp_all
    | setFrameCallback cb e =>
      simp only [exec, Option.some.injEq, Prod.mk.injEq, Sys.after] at hx
      rw [← hx.2]
      simp only [setFrameCallback]
      repeat' split
      all_goals simp_all
    | setPreview w =>
      simp only [exec, Option.some.injEq, Prod.mk.injEq, Sys.after] at hx
      rw [← hx.2]
      simp only [setPreview]
      repeat' split
      all_goals simp_all
    | start e =>
      simp only [exec, Option.map_eq_some', Sys.after, Prod.mk.injEq] at hx
      obtain ⟨⟨a1, c1, ev1⟩, hst, -, ht⟩ := hx
      rw [← ht]
      intro hrun
      by_cases hs : s.cam.status = .STATUS_INIT
      · obtain ⟨tbl, h1, h2⟩ := start_running_table _ _ _ _ _ hst hs hrun
        simp only at h1 ⊢
        rw [h1, Option.map_some', h2]
      · rcases start_frame _ _ _ _ _ hst with ⟨-, h2⟩ | ⟨hs2, -⟩
        · simp only at hrun ⊢
          rw [h2] at hrun ⊢
          exact ih hrun
        · exact absurd hs2 hs
    | stop e =>
      simp only [exec, Option.map_eq_some', Sys.after, Prod.mk.injEq] at hx
      obtain ⟨⟨a1, c1, ev1⟩, hst, -, ht⟩ := hx
      rw [← ht]
      rcases stop_frame _ _ _ _ _ hst with ⟨hs, h2, -⟩ | ⟨hs, h2⟩
      · simp only; rw [h2]; exact ih
      · simp only; rw [h2]; simp
    | close e =>
      simp only [exec, Option.some.injEq, Prod.mk.injEq, Sys.after] at hx
      rw [← hx.2]
      by_cases hs : s.cam.status = .STATUS_INIT
      · intro hrun
        simp only [close, hs, if_true] at hrun
        split at hrun <;> simp at hrun
      · simp only [close, hs, if_false]
        exact ih
    | destroy =>
      simp only [exec, Option.some.injEq, Prod.mk.injEq, Sys.after] at hx
      rw [← hx.2]
      simp [destroy]
  | requestSaveFrame s p _ ih =>
    simp only [requestSaveFrame]
    repeat' split
    all_goals simp_all
  | capture s script l c ev _ hl ih =>
    have := loopFrame_frame _ _ _ _ _ _ hl
    simp only
    rw [this]
    exact ih

theorem reachable_of_runCalls (cs : List Call) (s t : Sys) (hr : Reachable s)
    (h : runCalls s cs = some t) : Reachable t := by
  induction cs generalizing s with
  | nil =>
    simp only [runCalls, Option.some.injEq] at h
    rw [← h]; exact hr
  | cons c rest ih =>
    simp only [runCalls] at h
    split at h
    · simp at h
    · rename_i r hx
      exact ih r.2 (Reachable.call s c r.1 r.2 hr hx) h

theorem releaseBuffers_total (e : StopEnv) (tbl : List VideoBuffer) (l : List Nat)
    (hl : ∀ i ∈ l, i < tbl.length) : ∃ ev, releaseBuffers e tbl l = some ev := by
  induction l with
  | nil => exact ⟨[], rfl⟩
  | cons i rest ih =>
    obtain ⟨ev, hev⟩ := ih (fun x hx => hl x (List.mem_cons_of_mem _ hx))
    have hi := hl i (List.mem_cons_self _ _)
    simp only [releaseBuffers, hev, List.get?_eq_get hi]
    exact ⟨_, rfl⟩

/-- What `stop` followed by `close` does release: from every reachable Running state
`stop` returns, whatever results its calls have, and leaves the lifecycle state
Configured; a `close` issued next whose descriptor close succeeds returns success, leaves
the state Created, and its calls are the descriptor close, the `free` of the buffer table
the object holds, the `free` of the scratch buffer and the delete of the decoder when the
object holds one, then the release of the preview and of the callback reference; the three
pointers are null afterwards. -/
theorem stop_then_close (s : Sys) (e : StopEnv) (ce : CloseEnv) (hr : Reachable s)
    (hs : s.cam.status = .STATUS_RUN) (hc : 0 ≤ ce.closeRet) :
    ∃ a t u, exec s (.stop e) = some (a, t) ∧ t.cam.status = .STATUS_INIT ∧
      exec t (.close ce) = some (.ACTION_SUCCESS, u) ∧ u.cam.status = .STATUS_CREATE ∧
      u.cam.buffers = none ∧ u.cam.out_buffer = none ∧ u.cam.decoder = none ∧
      u.trace = t.trace ++
        ([Event.sys_close s.cam.fd ce.closeRet, Event.free_buffers]
          ++ (if s.cam.out_buffer.isSome = true then [Event.free_out_buffer] else [])
          ++ (if s.cam.decoder.isSome = true then [Event.decoder_delete] else [])
          ++ (if s.cam.preview.isSome = true then [Event.preview_destroy] else [])
          ++ (if ce.hasJNIEnv = true ∧ s.cam.frameCallback_onFrame ≠ 0 then
                [Event.DeleteGlobalRef s.cam.frameCallback] else [])) := by
  obtain ⟨tbl, ht, hl⟩ : ∃ tbl, s.cam.buffers = some tbl ∧ tbl.length = MAX_BUFFER_COUNT := by
    have := reachable_running_has_table s hr hs
    cases hb : s.cam.buffers with
    | none => rw [hb] at this; simp at this
    | some tbl => rw [hb] at this; exact ⟨tbl, rfl, by simpa using this⟩
  obtain ⟨ev, hev⟩ := releaseBuffers_total e tbl (List.range MAX_BUFFER_COUNT)
    (fun i hi => by rw [hl]; exact List.mem_range.mp hi)
  have hneg : ¬ ce.closeRet < 0 := by omega
  have hstop : ∃ a evs, stop s.cam e = some (a, { s.cam with status := .STATUS_INIT }, evs) := by
    simp only [stop, hs, if_true, ht, hev]
    exact ⟨_, _, rfl⟩
  obtain ⟨a, evs, hst⟩ := hstop
  refine ⟨a, ⟨{ s.cam with status := .STATUS_INIT }, s.trace ++ evs⟩,
    (Sys.after ⟨{ s.cam with status := .STATUS_INIT }, s.trace ++ evs⟩
      (close { s.cam with status := .STATUS_INIT } ce)).2, ?_, rfl, ?_, ?_⟩
  · simp [exec, hst, Sys.after]
  · simp only [exec, Sys.after, close, if_true, hneg, if_false]
    split <;> rfl
  · simp only [Sys.after, close, if_true]
    split <;> simp [safeRelease, ht, *]

/-- Worked example of `stop_then_close`: the Running camera `exampleRunningSys`; every
system call of `stop` and `close` succeeds. -/
theorem stop_then_close_witness :
    ∃ a t u, exec exampleRunningSys (.stop ⟨0, 0, fun _ => 0⟩) = some (a, t) ∧
      t.cam.status = .STATUS_INIT ∧
      exec t (.close ⟨0, true⟩) = some (.ACTION_SUCCESS, u) ∧
      u.cam.status = .STATUS_CREATE ∧
      u.cam.buffers = none ∧ u.cam.out_buffer = none ∧ u.cam.decoder = none ∧
      u.trace = t.trace ++ [Event.sys_close 5 0, Event.free_buffers, Event.decoder_delete,
        Event.preview_destroy, Event.DeleteGlobalRef 7] := by
  obtain ⟨a, t, u, h1, h2, h3, h4, h5, h6, h7, h8⟩ :=
    stop_then_close exampleRunningSys ⟨0, 0, fun _ => 0⟩ ⟨0, true⟩
      (reachable_of_runCalls
        [.connectByPath (some "/dev/video0") exampleOpen,
         .setFrameSize 2 1 0 exampleFormat,
         .setFrameCallback 7 ⟨1, 2⟩,
         .setPreview 9,
         .start ⟨exampleBuffers, 0, 0, 1⟩] Sys.init _ Reachable.init (by decide))
      (by decide) (by decide)
  exact ⟨a, t, u, h1, h2, h3, h4, h5, h6, h7, h8.trans (congrArg (fun l => t.trace ++ l) rfl)⟩

/-- Claim C14. With `caps` the word `device_caps` when bit `0x80000000` is set in
`capabilities`, else `capabilities`: when `open` and the capability query succeed,
`openDevice` in state Created returns success exactly when `caps` has the capture bit
`0x1` or the multi-planar capture bit `0x1000`; on success the state is Opened, the
descriptor is kept, and the multi-planar variant is selected exactly when the multi-planar
bit is set (also when both bits are set); when neither bit is set it returns
`ACTION_ERROR_START`, the state stays Created and the handle is reset to 0. -/
theorem openDevice_capability_probe (c : CameraAPI) (devicePath : String) (e : OpenEnv)
    (hs : c.status = .STATUS_CREATE) (ho : 0 ≤ e.openRet) (hq : 0 ≤ e.querycapRet) :
    ((openDevice c devicePath e).1 = .ACTION_SUCCESS ↔
      ((if e.capabilities &&& 0x80000000 ≠ 0 then e.device_caps else e.capabilities)
          &&& 0x1 ≠ 0 ∨
        (if e.capabilities &&& 0x80000000 ≠ 0 then e.device_caps else e.capabilities)
          &&& 0x1000 ≠ 0)) ∧
    ((openDevice c devicePath e).1 = .ACTION_SUCCESS →
      (openDevice c devicePath e).2.1.status = .STATUS_OPEN ∧
      (openDevice c devicePath e).2.1.fd = e.openRet ∧
      ((openDevice c devicePath e).2.1.useMultiplanar = true ↔
        (if e.capabilities &&& 0x80000000 ≠ 0 then e.device_caps else e.capabilities)
          &&& 0x1000 ≠ 0)) ∧
    ((openDevice c devicePath e).1 ≠ .ACTION_SUCCESS →
      (openDevice c devicePath e).1 = .ACTION_ERROR_START ∧
      (openDevice c devicePath e).2.1.status = .STATUS_CREATE ∧
      (openDevice c devicePath e).2.1.fd = 0) := by
  have h1 : ¬ e.openRet < 0 := by omega
  have h2 : ¬ e.querycapRet < 0 := by omega
  by_cases hd : e.capabilities &&& 0x80000000 = 0
  · by_cases ha : e.capabilities &&& 0x1 = 0 <;> by_cases hb : e.capabilities &&& 0x1000 = 0 <;>
      simp [-Nat.and_one_is_mod, openDevice, hs, h1, h2, effectiveCaps, V4L2_CAP_DEVICE_CAPS, V4L2_CAP_VIDEO_CAPTURE,
        V4L2_CAP_VIDEO_CAPTURE_MPLANE, hd, ha, hb]
  · by_cases ha : e.device_caps &&& 0x1 = 0 <;> by_cases hb : e.device_caps &&& 0x1000 = 0 <;>
      simp [-Nat.and_one_is_mod, openDevice, hs, h1, h2, effectiveCaps, V4L2_CAP_DEVICE_CAPS, V4L2_CAP_VIDEO_CAPTURE,
        V4L2_CAP_VIDEO_CAPTURE_MPLANE, hd, ha, hb]

/-- Witness of C14: a driver that sets the device-caps bit and advertises both capture
bits in `device_caps`; the multi-planar variant is selected. -/
theorem openDevice_capability_probe_witness :
    (openDevice CameraAPI.new "/dev/video0" ⟨5, 0, 0, 0, 0x80000000, 0x1001⟩).1
        = .ACTION_SUCCESS ∧
      (openDevice CameraAPI.new "/dev/video0" ⟨5, 0, 0, 0, 0x80000000, 0x1001⟩).2.1.status
        = .STATUS_OPEN ∧
      (openDevice CameraAPI.new "/dev/video0"
        ⟨5, 0, 0, 0, 0x80000000, 0x1001⟩).2.1.useMultiplanar = true :=
  have h := openDevice_capability_probe CameraAPI.new "/dev/video0"
    ⟨5, 0, 0, 0, 0x80000000, 0x1001⟩ rfl (by decide) (by decide)
  have hs := h.1.mpr (by decide)
  ⟨hs, (h.2.1 hs).1, (h.2.1 hs).2.2.mpr (by decide)⟩

/-- Claim C15. For a path that is null, empty, or whose first ten characters are not
`/dev/video`, `connectByPath` returns `ACTION_ERROR_INVALID_PATH` in every lifecycle state
and with any environment, leaves the whole object unchanged (the lifecycle state and the
device handle among its fields) and makes no call at all, so no `open`. -/
theorem connectByPath_invalid_path (c : CameraAPI) (devicePath : Option String) (e : PathEnv)
    (h : devicePath = none ∨ devicePath = some "" ∨
      ∃ p, devicePath = some p ∧ p.toList.take 10 ≠ "/dev/video".toList) :
    connectByPath c devicePath e = (.ACTION_ERROR_INVALID_PATH, c, []) ∧
      (connectByPath c devicePath e).2.1.status = c.status ∧
      (connectByPath c devicePath e).2.1.fd = c.fd ∧
      ∀ path ret, Event.sys_open path ret ∉ (connectByPath c devicePath e).2.2 := by
  have key : connectByPath c devicePath e = (.ACTION_ERROR_INVALID_PATH, c, []) := by
    rcases h with h | h | ⟨p, h, hp⟩
    · subst h
      simp [connectByPath, validateDevicePath]
    · subst h
      simp [connectByPath, validateDevicePath]
    · subst h
      have hne : strncmpDevVideoNe p = true := by
        simp only [strncmpDevVideoNe, bne_iff_ne, ne_eq]
        exact hp
      simp only [connectByPath, validateDevicePath, hne, if_true]
      split <;> rfl
  rw [key]
  simp

/-- Witness of C15: the path `/dev/null` on the Running example camera. -/
theorem connectByPath_invalid_path_witness :
    connectByPath exampleRunning (some "/dev/null") exampleOpen
        = (.ACTION_ERROR_INVALID_PATH, exampleRunning, []) :=
  (connectByPath_invalid_path exampleRunning (some "/dev/null") exampleOpen
    (Or.inr (Or.inr ⟨"/dev/null", rfl, by decide⟩))).1

/-! ## Callback registration, path suffix, stale handle, copy length -/

/-- Claim C16 (failing input). On a Configured camera with the callback 7 registered,
`setFrameCallback` with a null callback returns success and releases the reference 7
(`DeleteGlobalRef 7`), but leaves `frameCallback = 7` and `frameCallback_onFrame = 2` in
the object: a sink is still registered and `sendFrame` delivers the next frame to the
released reference. -/
theorem setFrameCallback_null_keeps_registration :
    ∃ s t, runCalls Sys.init
        [.connectByPath (some "/dev/video0") exampleOpen,
         .setFrameSize 2 1 1 exampleFormat,
         .setFrameCallback 7 ⟨1, 2⟩] = some s ∧
      s.cam.status = .STATUS_INIT ∧ s.cam.frameCallback = 7 ∧
      exec s (.setFrameCallback 0 ⟨0, 0⟩) = some (.ACTION_SUCCESS, t) ∧
      t.trace = s.trace ++ [Event.DeleteGlobalRef 7] ∧
      t.cam.frameCallback = 7 ∧ t.cam.frameCallback_onFrame = 2 ∧
      sendFrame t.cam (some [1, 2, 3, 4]) = [Event.CallVoidMethod 7 2 [1, 2, 3, 4] 4] :=
  ⟨_, _, rfl, by decide, by decide, rfl, by decide, by decide, by decide, by decide⟩

/-- Claim C17 (failing input). The existing path `/dev/video0abc`, whose text after
`/dev/video` contains the non-digit characters `abc`, is accepted by
`validateDevicePath`: only the first character after `/dev/video` is tested. -/
theorem validateDevicePath_accepts_non_numeric_suffix :
    validateDevicePath (some "/dev/video0abc") 0
        = (true, [Event.access "/dev/video0abc" 0]) ∧
      ("/dev/video0abc".toList.drop 10).all isdigit = false ∧
      (connectByPath CameraAPI.new (some "/dev/video0abc") exampleOpen).2.2
        = [Event.access "/dev/video0abc" 0, Event.sys_open "/dev/video0abc" 5,
           Event.VIDIOC_QUERYCAP 5 0] :=
  ⟨by decide, by decide, by decide⟩

/-- Claim C18 (failing input). Two reachable states in which the lifecycle state is
Created and the device handle is not 0: after a `connectByPath` whose `open` fails the
handle is `-1`, and after `connectByPath`, `setFrameSize` and `close` the handle is still
the closed descriptor 5. -/
theorem created_state_with_stale_handle :
    (∃ s, runCalls Sys.init [.connectByPath (some "/dev/video0") exampleOpenFails] = some s ∧
      s.cam.status = .STATUS_CREATE ∧ s.cam.fd = -1) ∧
    (∃ s, runCalls Sys.init
        [.connectByPath (some "/dev/video0") exampleOpen,
         .setFrameSize 2 1 1 exampleFormat,
         .close ⟨0, true⟩] = some s ∧
      s.cam.status = .STATUS_CREATE ∧ s.cam.fd = 5 ∧ openDescriptors s.trace = []) ∧
    CameraAPI.new.fd = 0 :=
  ⟨⟨_, rfl, by decide, by decide⟩, ⟨_, rfl, by decide, by decide, by decide⟩, rfl⟩

/-- Claim C19 (failing input). An uncompressed 2x1 camera (`pixelBytes = 4`) whose driver
grants slots of 2 bytes: for a dequeued buffer with 2 bytes used the loop copies 4 bytes
from the slot, more than the bytes used and more than the slot's mapped length, and
delivers them. -/
theorem yuyv_copy_reads_past_slot :
    ∃ s c ev, runCalls Sys.init
        [.connectByPath (some "/dev/video0") exampleOpen,
         .setFrameSize 2 1 1 exampleFormat,
         .setFrameCallback 7 ⟨1, 2⟩,
         .start ⟨exampleBuffersShort, 0, 0, 1⟩] = some s ∧
      s.cam.status = .STATUS_RUN ∧ s.cam.pixelBytes = 4 ∧
      s.cam.buffers.map (fun tbl => tbl.map VideoBuffer.length) = some [2, 2, 2, 2] ∧
      loopFrame [⟨.STATUS_RUN, 1, 0, 0, 2, 2, fun k => 10 + k, none, 0⟩] s.cam []
        = some (.looping, c, ev) ∧
      ev = [Event.select 6 1, Event.VIDIOC_DQBUF 5 1 0 0,
            Event.memcpy_out_buffer 4096 4,
            Event.CallVoidMethod 7 2 [10, 11, 12, 13] 4,
            Event.VIDIOC_QBUF 5 0 1 0] :=
  ⟨_, _, _, rfl, by decide, by decide, by decide, rfl, by decide⟩

end CameraV4L2
